import Mathlib

/-!
Shallow embedding of the synchronization / reconciliation core of the
travel-planner client (src/lib/db.ts, src/lib/syncService.ts,
src/lib/dataExport.ts).

Modelling conventions, used uniformly below:

* The local cache store (Dexie) is modelled as a `DB` value: one `Table`
  per collection, a table being a list of `(local key, payload)` rows plus
  the auto-increment counter.  `__dexieid` is the local key of a row; it is
  kept outside the payload, which makes `stripDexieId` the identity on
  payloads (export documents simply carry payloads).
* The remote store (Supabase) is an external collaborator: every remote
  call made by a function becomes an explicit argument holding that call's
  outcome (`SupaRes`, `Fetch`, `DelRes`).  An operation "performs no remote
  call" iff its result does not depend on those arguments.  A thrown
  JavaScript exception and a returned `{ error }` object are distinct
  outcomes, because the source treats them differently (`catch` blocks vs
  `if (error)` checks).
* JavaScript values `string | number` (expense payer / charged-to keys)
  are modelled by `JKey`; `String(x)` is `JKey.toStr`.  `undefined`/`null`
  record fields are both `Option.none` (no claim distinguishes them).
* JavaScript `Number(s)` on the id strings that occur here (decimal
  naturals or UUID-like strings) is modelled by `jsToNumber`:
  `""` parses to `0`, digit strings parse to the number, everything else
  is `NaN` (`none`).
* The connectivity oracle `isOnline()` becomes an explicit `online : Bool`
  argument, and the ambient local user identity becomes an explicit
  `Option String` argument where a function reads it.
-/

namespace TravelPlanner

/-- JavaScript `string | number` identifier values. -/
inductive JKey where
  | s (v : String)
  | n (v : Nat)
deriving Repr, DecidableEq

/-- `String(x)` on a `JKey`. -/
def JKey.toStr : JKey → String
  | .s v => v
  | .n v => toString v

/-- JavaScript `Number(s)` restricted to the identifier strings of this
program: the empty string is `0`, digit strings are decimal naturals, and
any other string (UUIDs etc.) is `NaN` (`none`). -/
def jsToNumber (s : String) : Option Nat :=
  if s = "" then some 0
  else if s.data.all Char.isDigit then
    some (s.data.foldl (fun n c => n * 10 + (c.toNat - 48)) 0)
  else none

/-- `TripItem` of db.ts (without `__dexieid`). -/
structure TripItem where
  trip_id : Option String := none
  issync : Option Bool := none
  title : String
  start_date : Option String := none
  end_date : Option String := none
  is_public : Option Bool := none
  created_at : Option String := none
  updated_at : Option Nat := none
  owner_id : Option String := none
deriving Repr, DecidableEq

/-- `ItineraryItem` of db.ts.  The `place_id` field is not declared in the
db.ts interface but is read and written at runtime (dataExport.ts,
the five-fetch revision of syncService.ts); it is included here. -/
structure ItineraryItem where
  itinerary_id : Option String := none
  issync : Option Bool := none
  trip_id : Option String := none
  day_index : Nat
  title : String
  time : Option String := none
  url : Option String := none
  remark : Option String := none
  map_link : Option String := none
  lat : Option Int := none
  lng : Option Int := none
  place_name : Option String := none
  place_id : Option JKey := none
  order : Option Nat := none
deriving Repr, DecidableEq

/-- `PackingItem` of db.ts. -/
structure PackingItem where
  packing_id : Option String := none
  issync : Option Bool := none
  trip_id : Option String := none
  title : String
  completed : Bool
  color : Option String := none
  order : Nat
deriving Repr, DecidableEq

/-- `TravelerItem` of db.ts. -/
structure TravelerItem where
  traveler_id : Option String := none
  issync : Option Bool := none
  trip_id : Option String := none
  name : String
  email : Option String := none
  icon : Option String := none
deriving Repr, DecidableEq

/-- `ExpenseItem` of db.ts. -/
structure ExpenseItem where
  expense_id : Option String := none
  issync : Option Bool := none
  trip_id : Option String := none
  title : String
  amount : Int
  payer_id : Option JKey := none
  charged_to : Option (List JKey) := none
  datetime : Option String := none
deriving Repr, DecidableEq

/-- `PlaceItem` (used by dataExport.ts and the five-fetch reconciler;
fields as written by those sites). -/
structure PlaceItem where
  place_id : Option String := none
  issync : Option Bool := none
  trip_id : Option String := none
  title : String
  lat : Option Int := none
  lng : Option Int := none
  url : Option String := none
deriving Repr, DecidableEq

/-- `UserItem` of db.ts. -/
structure UserItem where
  user_id : Option String := none
  issync : Option Bool := none
  username : Option String := none
  birthday : Option String := none
  gender : Option String := none
  short_code : Option String := none
deriving Repr, DecidableEq

/-! ### The local cache store (Dexie) -/

/-- One Dexie table: rows keyed by the auto-increment local key
(`__dexieid`), plus the next key the table will hand out. -/
structure Table (α : Type) where
  rows : List (Nat × α)
  nextId : Nat
deriving Repr, DecidableEq

/-- Empty table; Dexie starts auto-increment keys at 1. -/
def Table.empty {α} : Table α := ⟨[], 1⟩

/-- `table.add(payload)` — returns the fresh local key and the grown table. -/
def Table.add {α} (t : Table α) (a : α) : Nat × Table α :=
  (t.nextId, ⟨t.rows ++ [(t.nextId, a)], t.nextId + 1⟩)

/-- `table.get(key)`. -/
def Table.get {α} (t : Table α) (k : Nat) : Option α :=
  (t.rows.find? (fun r => r.1 = k)).map (·.2)

/-- `table.update(key, patch)` with the patch expressed as a function. -/
def Table.update {α} (t : Table α) (k : Nat) (f : α → α) : Table α :=
  { t with rows := t.rows.map (fun r => if r.1 = k then (r.1, f r.2) else r) }

/-- `table.delete(key)`. -/
def Table.del {α} (t : Table α) (k : Nat) : Table α :=
  { t with rows := t.rows.filter (fun r => r.1 ≠ k) }

/-- `table.where(ix).equals(v).modify(patch)` — rewrite every row whose
payload satisfies `p`. -/
def Table.modifyWhere {α} (t : Table α) (p : α → Bool) (f : α → α) : Table α :=
  { t with rows := t.rows.map (fun r => if p r.2 then (r.1, f r.2) else r) }

/-- `table.where(ix).equals(v).delete()`. -/
def Table.delWhere {α} (t : Table α) (p : α → Bool) : Table α :=
  { t with rows := t.rows.filter (fun r => ¬ p r.2) }

/-- `table.where(ix).equals(v).toArray()` (payloads, store order). -/
def Table.selWhere {α} (t : Table α) (p : α → Bool) : List α :=
  (t.rows.filter (fun r => p r.2)).map (·.2)

/-- `table.bulkAdd(items)`. -/
def Table.bulkAdd {α} (t : Table α) (items : List α) : Table α :=
  items.foldl (fun acc a => (acc.add a).2) t

/-- The whole local cache store (`TravelPlannerDB`, schema v5+). -/
structure DB where
  users : Table UserItem
  trips : Table TripItem
  places : Table PlaceItem
  itinerary : Table ItineraryItem
  packing : Table PackingItem
  travelers : Table TravelerItem
  expenses : Table ExpenseItem
deriving Repr, DecidableEq

/-- A store with all tables empty. -/
def DB.empty : DB :=
  ⟨Table.empty, Table.empty, Table.empty, Table.empty, Table.empty,
   Table.empty, Table.empty⟩

/-! ### Remote call outcomes -/

/-- Outcome of a Supabase call of the `{ data, error }` kind
(`.select().single()`, `.select('*')`, inserts with `.select()`):
`ok` is `error` null and `data` non-null, `errRes` is a returned error
object (or null data), `thrown` is a rejected promise caught by the
surrounding `catch`. -/
inductive SupaRes (α : Type) where
  | ok (a : α)
  | errRes
  | thrown
deriving Repr, DecidableEq

/-- Outcome of a Supabase `.delete()` call (only `error` is inspected). -/
inductive DelRes where
  | ok
  | errRes
  | thrown
deriving Repr, DecidableEq

/-- Outcome of one of the parallel child fetches of the Full Trip
Reconciler: `ok rows` is `error` null with `data` = rows, `fail` is a
returned error object (`data` null).  A rejected promise is modelled
separately (it rejects the whole `Promise.all`). -/
inductive Fetch (α : Type) where
  | ok (rows : List α)
  | fail
deriving Repr, DecidableEq

/-- `res.data?.length ? ... : skip` — the rows a fetch contributes. -/
def Fetch.rowsOr {α} : Fetch α → List α
  | .ok rows => rows
  | .fail => []

/-- Whether a fetch returned an error object. -/
def Fetch.failed {α} : Fetch α → Bool
  | .ok _ => false
  | .fail => true

/-! ### Remote row shapes (fields read by the mapping sites) -/

/-- A remote `itinerary` row as read by the reconciler / list mapping. -/
structure SupaItineraryRow where
  itinerary_id : Option String := none
  trip_id : Option String := none
  day_index : Nat
  title : String
  time : Option String := none
  url : Option String := none
  remark : Option String := none
  map_link : Option String := none
  lat : Option Int := none
  lng : Option Int := none
  place_name : Option String := none
  place_id : Option JKey := none
  order : Option Nat := none
deriving Repr, DecidableEq

/-- A remote `packing` row. -/
structure SupaPackingRow where
  packing_id : Option String := none
  trip_id : Option String := none
  title : String
  completed : Bool
  color : Option String := none
  order : Nat
deriving Repr, DecidableEq

/-- A remote `travelers` row. -/
structure SupaTravelerRow where
  traveler_id : Option String := none
  trip_id : Option String := none
  name : String
  email : Option String := none
  icon : Option String := none
deriving Repr, DecidableEq

/-- A remote `expenses` row.  The `charged_to` column is stored as a JSON
string remotely; the `JSON.parse` of it is modelled as the already-decoded
key list. -/
structure SupaExpenseRow where
  expense_id : Option String := none
  trip_id : Option String := none
  title : String
  amount : Int
  payer_id : Option JKey := none
  charged_to : Option (List JKey) := none
  datetime : Option String := none
deriving Repr, DecidableEq

/-- A remote `trips` row (fields read after trip reads/inserts). -/
structure SupaTripRow where
  id : Option String := none
  trip_id : Option String := none
  title : String
  start_date : Option String := none
  end_date : Option String := none
  is_public : Option Bool := none
  created_at : Option String := none
  updated_at : Option Nat := none
  owner_id : Option String := none
deriving Repr, DecidableEq

/-! ### Full Trip Reconciler (syncTripFromSupabase, four-fetch revision,
syncService.ts lines 1152-1238; the file also contains an earlier
five-fetch revision that additionally reconciles `places` the same way) -/

/-- Mapping applied to fetched itinerary rows before insertion. -/
def itineraryRowToItem (item : SupaItineraryRow) : ItineraryItem :=
  { itinerary_id := item.itinerary_id
    trip_id := item.trip_id
    issync := some true
    day_index := item.day_index
    title := item.title
    time := item.time
    url := item.url
    remark := item.remark
    map_link := item.map_link
    lat := item.lat
    lng := item.lng
    place_name := item.place_name
    order := item.order }

/-- Mapping applied to fetched packing rows before insertion. -/
def packingRowToItem (item : SupaPackingRow) : PackingItem :=
  { packing_id := item.packing_id
    trip_id := item.trip_id
    issync := some true
    title := item.title
    completed := item.completed
    color := item.color
    order := item.order }

/-- Mapping applied to fetched traveler rows before insertion. -/
def travelerRowToItem (item : SupaTravelerRow) : TravelerItem :=
  { traveler_id := item.traveler_id
    trip_id := item.trip_id
    issync := some true
    name := item.name
    email := item.email
    icon := item.icon }

/-- Mapping applied to fetched expense rows before insertion. -/
def expenseRowToItem (item : SupaExpenseRow) : ExpenseItem :=
  { expense_id := item.expense_id
    trip_id := item.trip_id
    issync := some true
    title := item.title
    amount := item.amount
    payer_id := item.payer_id
    charged_to := item.charged_to
    datetime := item.datetime }

/-- `syncTripFromSupabase(tripId)` (four-fetch revision).  The four
parallel fetches are `Promise.all`-ed: if any of them *rejects*, the whole
function rejects before touching the store (`Except.error`); that case is
the `none` value of `fetches`.  If the fetches resolve (each either `ok`
or an `{ error }` result), errors are only `console.log`-ged, and the
delete-then-bulk-insert transaction runs unconditionally. -/
def syncTripFromSupabase (online : Bool) (tripId : String)
    (fetches : Option (Fetch SupaItineraryRow × Fetch SupaPackingRow ×
      Fetch SupaTravelerRow × Fetch SupaExpenseRow))
    (dxb : DB) : Except String DB :=
  if !online || tripId = "" then .ok dxb
  else
    match fetches with
    | none => .error "one of the parallel fetches rejected"
    | some (itineraryRes, packingRes, travelersRes, expensesRes) =>
      .ok { dxb with
        itinerary :=
          ((dxb.itinerary.delWhere (fun i => i.trip_id = some tripId)).bulkAdd
            (itineraryRes.rowsOr.map itineraryRowToItem))
        packing :=
          ((dxb.packing.delWhere (fun i => i.trip_id = some tripId)).bulkAdd
            (packingRes.rowsOr.map packingRowToItem))
        travelers :=
          ((dxb.travelers.delWhere (fun i => i.trip_id = some tripId)).bulkAdd
            (travelersRes.rowsOr.map travelerRowToItem))
        expenses :=
          ((dxb.expenses.delWhere (fun i => i.trip_id = some tripId)).bulkAdd
            (expensesRes.rowsOr.map expenseRowToItem)) }

/-! ### Entity repositories (syncService.ts).  Where the two concatenated
revisions of the file differ, the revision the claims cite is embedded;
differences are noted on the definition. -/

/-- JavaScript truthiness of an identifier argument (`!itemId`). -/
def JKey.falsy : JKey → Bool
  | .s v => v = ""
  | .n v => v = 0

/-- Result of `getTrip`: a remote row, a cached row, or `null`. -/
inductive GetTripResult where
  | remote (r : SupaTripRow)
  | cached (t : TripItem)
  | nothing
deriving Repr, DecidableEq

/-- `getTrip(tripId)` (lines 21-49).  When online the remote read is always
attempted with `String(tripId)`; an error result or a thrown call falls
through to the cache, which is consulted only for a numeric argument. -/
def getTrip (online : Bool) (tripId : JKey) (remote : SupaRes SupaTripRow)
    (dxb : DB) : GetTripResult :=
  let fallback :=
    match tripId with
    | .n k => match dxb.trips.get k with
      | some t => .cached t
      | none => .nothing
    | .s _ => .nothing
  if online then
    match remote with
    | .ok data => .remote data
    | .errRes => fallback
    | .thrown => fallback
  else fallback

/-- `deleteTrip(tripId)` (lines 463-490).  The local row is deleted only
when the argument is a numeric local key; a remote error result skips the
local delete and reports failure, a thrown call deletes locally and still
reports failure. -/
def deleteTrip (online : Bool) (tripId : JKey) (remote : DelRes) (dxb : DB) :
    Bool × DB :=
  let localDel : DB :=
    match tripId with
    | .n k => { dxb with trips := dxb.trips.del k }
    | .s _ => dxb
  if !online then (true, localDel)
  else
    match remote with
    | .ok => (true, localDel)
    | .errRes => (false, dxb)
    | .thrown => (false, localDel)

/-- `getPackingItems(tripId)` (lines 494-525).  The remote read is always
attempted when online (with `String(tripId)`, even for `null`); on
success the mapped remote rows are returned and the local store is not
touched. -/
def getPackingItems (online : Bool) (tripId : Option String)
    (remote : SupaRes (List SupaPackingRow)) (dxb : DB) :
    List PackingItem × DB :=
  let fallback : List PackingItem :=
    match tripId with
    | none => []
    | some tid =>
      ((dxb.packing.selWhere (fun i => i.trip_id = some tid)).mergeSort
        (fun a b => a.order ≤ b.order))
  if online then
    match remote with
    | .ok data => (data.map packingRowToItem, dxb)
    | .errRes => (fallback, dxb)
    | .thrown => (fallback, dxb)
  else (fallback, dxb)

/-- `deletePackingItem(tripId, itemId)` (lines 662-710). -/
def deletePackingItem (online : Bool) (itemId : Option JKey) (remote : DelRes)
    (dxb : DB) : Bool × DB :=
  match itemId with
  | none => (false, dxb)
  | some k =>
    if k.falsy then (false, dxb)
    else
      let localDel : DB :=
        match k with
        | .n id => { dxb with packing := dxb.packing.del id }
        | .s _ => dxb
      if !online then (true, localDel)
      else
        let packingId : Option String :=
          match k with
          | .n id => (dxb.packing.get id).bind (·.packing_id)
          | .s s => some s
        match packingId with
        | none => (true, localDel)
        | some _ =>
          match remote with
          | .ok => (true, localDel)
          | .errRes => (false, dxb)
          | .thrown => (false, localDel)

/-- `getTravelers(tripId)` (lines 714-741). -/
def getTravelers (online : Bool) (tripId : Option String)
    (remote : SupaRes (List SupaTravelerRow)) (dxb : DB) :
    List TravelerItem × DB :=
  let fallback : List TravelerItem :=
    match tripId with
    | none => []
    | some tid => dxb.travelers.selWhere (fun i => i.trip_id = some tid)
  if online then
    match remote with
    | .ok data => (data.map travelerRowToItem, dxb)
    | .errRes => (fallback, dxb)
    | .thrown => (fallback, dxb)
  else (fallback, dxb)

/-- `getItineraryItems(tripId)` (lines 935-972; the later revision omits
the `place_id` field from the mapping). -/
def getItineraryItems (online : Bool) (tripId : Option String)
    (remote : SupaRes (List SupaItineraryRow)) (dxb : DB) :
    List ItineraryItem × DB :=
  let fallback : List ItineraryItem :=
    match tripId with
    | none => []
    | some tid =>
      ((dxb.itinerary.selWhere (fun i => i.trip_id = some tid)).mergeSort
        (fun a b => a.day_index ≤ b.day_index))
  if online then
    match remote with
    | .ok data => (data.map (fun item =>
        { itineraryRowToItem item with place_id := item.place_id }), dxb)
    | .errRes => (fallback, dxb)
    | .thrown => (fallback, dxb)
  else (fallback, dxb)

/-- The operation result shape `{ success, error? }`. -/
structure ImpRes where
  success : Bool
  error : Option String := none
deriving Repr, DecidableEq

/-- A trip record inside a parsed import document (including the legacy
`user_id` field the import falls back to for the owner). -/
structure TripDoc where
  trip_id : Option String := none
  issync : Option Bool := none
  title : Option String := none
  start_date : Option String := none
  end_date : Option String := none
  is_public : Option Bool := none
  created_at : Option String := none
  updated_at : Option Nat := none
  owner_id : Option String := none
  user_id : Option String := none
deriving Repr, DecidableEq

/-- A place record inside a parsed import document. -/
structure PlaceDoc where
  place_id : Option String := none
  issync : Option Bool := none
  trip_id : Option String := none
  title : Option String := none
  lat : Option Int := none
  lng : Option Int := none
  url : Option String := none
deriving Repr, DecidableEq

/-- A traveler record inside a parsed import document. -/
structure TravelerDoc where
  traveler_id : Option String := none
  issync : Option Bool := none
  trip_id : Option String := none
  name : Option String := none
  email : Option String := none
  icon : Option String := none
deriving Repr, DecidableEq

/-- An itinerary record inside a parsed import document. -/
structure ItineraryDoc where
  itinerary_id : Option String := none
  issync : Option Bool := none
  trip_id : Option String := none
  day_index : Option Nat := none
  title : Option String := none
  time : Option String := none
  url : Option String := none
  remark : Option String := none
  map_link : Option String := none
  lat : Option Int := none
  lng : Option Int := none
  place_name : Option String := none
  place_id : Option JKey := none
  order : Option Nat := none
deriving Repr, DecidableEq

/-- A packing record inside a parsed import document. -/
structure PackingDoc where
  packing_id : Option String := none
  issync : Option Bool := none
  trip_id : Option String := none
  title : Option String := none
  completed : Option Bool := none
  color : Option String := none
  order : Option Nat := none
deriving Repr, DecidableEq

/-- An expense record inside a parsed import document.  A non-numeric
`amount` coerces through `Number(e.amount) || 0`; only the absent case
(`0`) arises for well-typed documents and is modelled. -/
structure ExpenseDoc where
  expense_id : Option String := none
  issync : Option Bool := none
  trip_id : Option String := none
  title : Option String := none
  amount : Option Int := none
  payer_id : Option JKey := none
  charged_to : Option (List JKey) := none
  datetime : Option String := none
deriving Repr, DecidableEq

/-- One trip graph of a parsed trips document (`{trip, places, itinerary,
packing, travelers, expenses}`); a missing `trip` object or missing
collections are `none`. -/
structure TripGraphDoc where
  trip : Option TripDoc := none
  places : Option (List PlaceDoc) := none
  itinerary : Option (List ItineraryDoc) := none
  packing : Option (List PackingDoc) := none
  travelers : Option (List TravelerDoc) := none
  expenses : Option (List ExpenseDoc) := none
deriving Repr, DecidableEq

/-- Exported payload of a trip, as document record. -/
def TripItem.toDoc (t : TripItem) : TripDoc :=
  { trip_id := t.trip_id, issync := t.issync, title := some t.title
    start_date := t.start_date, end_date := t.end_date
    is_public := t.is_public, created_at := t.created_at
    updated_at := t.updated_at, owner_id := t.owner_id, user_id := none }

/-- Exported payload of a place, as document record. -/
def PlaceItem.toDoc (p : PlaceItem) : PlaceDoc :=
  { place_id := p.place_id, issync := p.issync, trip_id := p.trip_id
    title := some p.title, lat := p.lat, lng := p.lng, url := p.url }

/-- Exported payload of a traveler, as document record. -/
def TravelerItem.toDoc (t : TravelerItem) : TravelerDoc :=
  { traveler_id := t.traveler_id, issync := t.issync, trip_id := t.trip_id
    name := some t.name, email := t.email, icon := t.icon }

/-- Exported payload of an itinerary item, as document record. -/
def ItineraryItem.toDoc (i : ItineraryItem) : ItineraryDoc :=
  { itinerary_id := i.itinerary_id, issync := i.issync, trip_id := i.trip_id
    day_index := some i.day_index, title := some i.title, time := i.time
    url := i.url, remark := i.remark, map_link := i.map_link, lat := i.lat
    lng := i.lng, place_name := i.place_name, place_id := i.place_id
    order := i.order }

/-- Exported payload of a packing item, as document record. -/
def PackingItem.toDoc (p : PackingItem) : PackingDoc :=
  { packing_id := p.packing_id, issync := p.issync, trip_id := p.trip_id
    title := some p.title, completed := some p.completed, color := p.color
    order := some p.order }

/-- Exported payload of an expense, as document record. -/
def ExpenseItem.toDoc (e : ExpenseItem) : ExpenseDoc :=
  { expense_id := e.expense_id, issync := e.issync, trip_id := e.trip_id
    title := some e.title, amount := some e.amount, payer_id := e.payer_id
    charged_to := e.charged_to, datetime := e.datetime }

/-- One graph of the document `exportTripsData` produces (payloads with
local keys stripped). -/
structure TripGraphExport where
  trip : TripItem
  places : List PlaceItem
  itinerary : List ItineraryItem
  packing : List PackingItem
  travelers : List TravelerItem
  expenses : List ExpenseItem
deriving Repr, DecidableEq

/-- Document shape of an exported graph. -/
def TripGraphExport.toDoc (g : TripGraphExport) : TripGraphDoc :=
  { trip := some g.trip.toDoc
    places := some (g.places.map PlaceItem.toDoc)
    itinerary := some (g.itinerary.map ItineraryItem.toDoc)
    packing := some (g.packing.map PackingItem.toDoc)
    travelers := some (g.travelers.map TravelerItem.toDoc)
    expenses := some (g.expenses.map ExpenseItem.toDoc) }

/-- `queryByTripId(table, searchKeys)` of `exportTripsData`: try the
`trip_id` index first, then fall back to filtering the whole table
(`String(item.trip_id)` of an absent reference is `"undefined"`). -/
def queryByTripId {α} (tripRef : α → Option String) (t : Table α)
    (searchKeys : List String) : List α :=
  if searchKeys = [] then []
  else
    let indexed := t.selWhere (fun i =>
      match tripRef i with
      | some s => s ∈ searchKeys
      | none => false)
    if !indexed.isEmpty then indexed
    else t.selWhere (fun i =>
      match tripRef i with
      | some s => s ∈ searchKeys
      | none => decide ("undefined" ∈ searchKeys))

/-- The trip rows `exportTripsData` selects for the requested ids:
ids that parse as numbers are looked up by store key (`bulkGet`), the
remaining non-empty strings by the `trip_id` index. -/
def exportSelectedTrips (tripIds : List JKey) (dxb : DB) :
    List (Nat × TripItem) :=
  let numericIds : List Nat := tripIds.filterMap (fun k =>
    match k with
    | .n n => some n
    | .s s => jsToNumber s)
  let stringIds : List String := (tripIds.map JKey.toStr).filter
    (fun s => s ≠ "" ∧ jsToNumber s = none)
  let numericTrips : List (Nat × TripItem) :=
    numericIds.filterMap (fun k => (dxb.trips.get k).map (fun t => (k, t)))
  let stringTrips : List (Nat × TripItem) :=
    if stringIds = [] then []
    else dxb.trips.rows.filter (fun r =>
      match r.2.trip_id with
      | some s => s ∈ stringIds
      | none => false)
  numericTrips ++ stringTrips

/-- The graph `exportTripsData` emits for one selected trip row: children
are collected by the trip key (`trip_id`, falling back to the stringified
store key) and the legacy stringified store key. -/
def exportTripRow (dxb : DB) (r : Nat × TripItem) : TripGraphExport :=
  let tripKey : Option String := r.2.trip_id <|> some (toString r.1)
  let legacyKey : Option String := some (toString r.1)
  let keys := ([tripKey, legacyKey].filterMap id).filter (fun v => v ≠ "")
  let uniqueKeys := keys.dedup
  { trip := r.2
    places := queryByTripId PlaceItem.trip_id dxb.places uniqueKeys
    itinerary := queryByTripId ItineraryItem.trip_id dxb.itinerary uniqueKeys
    packing := queryByTripId PackingItem.trip_id dxb.packing uniqueKeys
    travelers := queryByTripId TravelerItem.trip_id dxb.travelers uniqueKeys
    expenses := queryByTripId ExpenseItem.trip_id dxb.expenses uniqueKeys }

/-- `exportTripsData(tripIds)` (dataExport.ts lines 25-81), producing the
parsed form of the JSON document. -/
def exportTripsData (tripIds : List JKey) (dxb : DB) : List TripGraphExport :=
  (exportSelectedTrips tripIds dxb).map (exportTripRow dxb)

/-! #### importTripsData and its Supabase push -/

/-- JS `Map.set` (overwrites an existing key). -/
def mapInsert {β} (m : List (String × β)) (k : String) (v : β) :
    List (String × β) :=
  (m.filter (fun e => e.1 ≠ k)) ++ [(k, v)]

/-- JS `Map.get`. -/
def mapLookup {β} (m : List (String × β)) (k : String) : Option β :=
  (m.find? (fun e => e.1 = k)).map (·.2)

/-- Import one place document: fresh local key, `place_id` reset to the
stringified key, id-map entry added when the document carried an old id. -/
def importPlaceDoc (newTripId : String)
    (st : DB × List (String × String)) (p : PlaceDoc) :
    DB × List (String × String) :=
  let (id, places') := st.1.places.add
    { place_id := none
      issync := p.issync
      trip_id := some newTripId
      title := p.title.getD "Untitled Place"
      lat := p.lat, lng := p.lng, url := p.url }
  let places'' := places'.update id
    (fun q => { q with place_id := some (toString id) })
  ({ st.1 with places := places'' },
    match p.place_id with
    | some old => mapInsert st.2 old (toString id)
    | none => st.2)

/-- Import one traveler document (the id map carries the fresh *numeric*
local key). -/
def importTravelerDoc (newTripId : String)
    (st : DB × List (String × Nat)) (t : TravelerDoc) :
    DB × List (String × Nat) :=
  let (id, travelers') := st.1.travelers.add
    { traveler_id := none
      issync := t.issync
      trip_id := some newTripId
      name := t.name.getD "Traveler"
      email := t.email, icon := t.icon }
  let travelers'' := travelers'.update id
    (fun q => { q with traveler_id := some (toString id) })
  ({ st.1 with travelers := travelers'' },
    match t.traveler_id with
    | some old => mapInsert st.2 old id
    | none => st.2)

/-- Build one imported itinerary item (place reference remapped only when
the old key is in the map; otherwise the old value is kept). -/
def importItineraryDoc (newTripId : String)
    (placeIdMap : List (String × String)) (idx : Nat) (i : ItineraryDoc) :
    ItineraryItem :=
  { itinerary_id := none
    issync := i.issync
    trip_id := some newTripId
    day_index := i.day_index.getD idx
    title := i.title.getD "Untitled"
    time := i.time, url := i.url, remark := i.remark
    map_link := i.map_link, lat := i.lat, lng := i.lng
    place_name := i.place_name
    place_id :=
      (i.place_id.bind (fun old =>
        (mapLookup placeIdMap old.toStr).map JKey.s)) <|> i.place_id
    order := i.order }

/-- Build one imported packing item. -/
def importPackingDoc (newTripId : String) (idx : Nat) (p : PackingDoc) :
    PackingItem :=
  { packing_id := none
    issync := p.issync
    trip_id := some newTripId
    title := p.title.getD "Item"
    completed := p.completed.getD false
    color := p.color
    order := p.order.getD (idx + 1) }

/-- Build one imported expense (payer remapped only when the old key is in
the traveler map — otherwise the old value is kept; charged-to entries
whose old key is unmapped are dropped). -/
def importExpenseDoc (newTripId : String)
    (travelerIdMap : List (String × Nat)) (e : ExpenseDoc) : ExpenseItem :=
  { expense_id := none
    issync := e.issync
    trip_id := some newTripId
    title := e.title.getD "Expense"
    amount := e.amount.getD 0
    payer_id :=
      (e.payer_id.bind (fun old =>
        (mapLookup travelerIdMap old.toStr).map JKey.n)) <|> e.payer_id
    charged_to := e.charged_to.map (fun l =>
      l.filterMap (fun old => (mapLookup travelerIdMap old.toStr).map JKey.n))
    datetime := e.datetime }

/-- The trip record `importTripsData` inserts for a trip document (old
ids cleared, owner falling back through the legacy `user_id` field to the
ambient identity). -/
def importTripPayload (defaultUserId : Option String) (trip : TripDoc) : TripItem :=
  { trip_id := none
    issync := trip.issync
    title := trip.title.getD "Untitled Trip"
    start_date := trip.start_date
    end_date := trip.end_date
    is_public := trip.is_public
    created_at := trip.created_at
    updated_at := trip.updated_at
    owner_id := trip.owner_id <|> trip.user_id <|> defaultUserId }

/-- First stage of importing one trip graph: insert the trip under a
fresh local key and stamp `trip_id` with its string form; returns the
grown store and the new local trip id. -/
def importStage1 (defaultUserId : Option String) (dxb : DB) (trip : TripDoc) :
    DB × String :=
  let added := dxb.trips.add (importTripPayload defaultUserId trip)
  let trips2 := added.2.update added.1
    (fun t => { t with trip_id := some (toString added.1) })
  ({ dxb with trips := trips2 }, toString added.1)

/-- Second stage: import the children of one trip graph (places and
travelers first, building the id maps; then itinerary, packing and
expenses with remapped references). -/
def importChildren (newTripId : String) (dxb : DB) (g : TripGraphDoc) : DB :=
  let stP := (g.places.getD []).foldl (importPlaceDoc newTripId) (dxb, [])
  let stT := (g.travelers.getD []).foldl (importTravelerDoc newTripId) (stP.1, [])
  let newItinerary := (g.itinerary.getD []).enum.map (fun p =>
    importItineraryDoc newTripId stP.2 p.1 p.2)
  let d4 : DB := { stT.1 with itinerary := stT.1.itinerary.bulkAdd newItinerary }
  let newPacking := (g.packing.getD []).enum.map (fun p =>
    importPackingDoc newTripId p.1 p.2)
  let d5 : DB := { d4 with packing := d4.packing.bulkAdd newPacking }
  let newExpenses := (g.expenses.getD []).map (importExpenseDoc newTripId stT.2)
  { d5 with expenses := d5.expenses.bulkAdd newExpenses }

/-- Import one trip graph into the store (dataExport.ts lines 144-256):
fresh trip key, `trip_id` set to its string form, places and travelers
inserted building the id maps, then itinerary/packing/expenses bulk-added
with remapped references.  Returns the grown store and the new local trip
id, or the descriptive error for a graph without a `trip` object. -/
def importTripGraph (defaultUserId : Option String) (dxb : DB)
    (g : TripGraphDoc) : Except String (DB × String) :=
  match g.trip with
  | none => .error "Invalid trip data: missing trip object"
  | some trip =>
    let st1 := importStage1 defaultUserId dxb trip
    .ok (importChildren st1.2 st1.1 g, st1.2)

/-- A payload pushed to the remote store after local import
(`{ ...tripData, local_trip_id }`). -/
structure SupaPayload where
  graph : TripGraphDoc
  local_trip_id : Option String := none
deriving Repr, DecidableEq

/-- One entry of the list `importTripsToSupabase` returns. -/
structure SyncResult where
  localTripId : Option String := none
  supaTripId : Option String := none
deriving Repr, DecidableEq

/-- The per-trip loop of `importTripsToSupabase` (later revision,
syncService.ts lines 1296-1408).  Each attempted remote trip insert
consumes one outcome; graphs without a `trip` object are skipped
(`continue`); an insert error is logged and the loop continues; a thrown
call hits the surrounding `catch`, which returns the results accumulated
so far.  The pushes of child rows (travelers, itinerary, packing,
expenses, with the same reference remapping as the local import) write
only to the remote store and do not influence the returned list, so their
outcomes are not tracked here. -/
def importTripsLoop : List SupaPayload → List (SupaRes SupaTripRow) →
    List SyncResult
  | [], _ => []
  | p :: rest, outs =>
    match p.graph.trip with
    | none => importTripsLoop rest outs
    | some trip =>
      match outs with
      | [] => []
      | o :: outs' =>
        match o with
        | .ok data =>
          { localTripId := p.local_trip_id <|> trip.trip_id
            supaTripId := data.trip_id <|> data.id } ::
            importTripsLoop rest outs'
        | .errRes => importTripsLoop rest outs'
        | .thrown => []

/-- `importTripsToSupabase(tripsData, options)` (later revision, lines
1278-1414), restricted to its observable return value: offline it skips
the push entirely and returns `[]`. -/
def importTripsToSupabase (tripsData : List SupaPayload) (online : Bool)
    (outcomes : List (SupaRes SupaTripRow)) : List SyncResult :=
  if !online then []
  else importTripsLoop tripsData outcomes

/-- The promotion rewrite applied for one successful sync result
(dataExport.ts lines 262-270): the trip row(s) carrying the local id get
the remote key and the sync flag, and every child row referencing the
local id is rewritten to the remote key. -/
def applySyncResult (dxb : DB) (localId supaId : String) : DB :=
  { dxb with
    trips := dxb.trips.modifyWhere (fun t => t.trip_id = some localId)
      (fun t => { t with trip_id := some supaId, issync := some true })
    places := dxb.places.modifyWhere (fun p => p.trip_id = some localId)
      (fun p => { p with trip_id := some supaId })
    itinerary := dxb.itinerary.modifyWhere (fun i => i.trip_id = some localId)
      (fun i => { i with trip_id := some supaId })
    packing := dxb.packing.modifyWhere (fun p => p.trip_id = some localId)
      (fun p => { p with trip_id := some supaId })
    travelers := dxb.travelers.modifyWhere (fun t => t.trip_id = some localId)
      (fun t => { t with trip_id := some supaId })
    expenses := dxb.expenses.modifyWhere (fun e => e.trip_id = some localId)
      (fun e => { e with trip_id := some supaId }) }

/-- The `for (const result of syncResults)` loop of `importTripsData`
(lines 260-271): results missing either id are skipped. -/
def applySyncResults (dxb : DB) (results : List SyncResult) : DB :=
  results.foldl (fun d r =>
    match r.localTripId, r.supaTripId with
    | some l, some s => applySyncResult d l s
    | _, _ => d) dxb

/-- The local import loop of `importTripsData` (lines 144-256): graphs are
imported in order; the first graph without a `trip` object aborts with the
descriptive error, *keeping* the writes already performed for earlier
graphs (there is no enclosing transaction). -/
def importTripsDataLoop (defaultUserId : Option String) :
    List TripGraphDoc → DB → List SupaPayload →
    Except (String × DB) (DB × List SupaPayload)
  | [], dxb, acc => .ok (dxb, acc)
  | g :: rest, dxb, acc =>
    match importTripGraph defaultUserId dxb g with
    | .error msg => .error (msg, dxb)
    | .ok (dxb', localId) =>
      importTripsDataLoop defaultUserId rest dxb'
        (acc ++ [{ graph := g, local_trip_id := some localId }])

/-- `importTripsData(jsonString)` (dataExport.ts lines 118-280) on an
already-parsed document (a single-object document is passed as the
one-element list, mirroring the array wrap).  `identityUserId` is the
ambient local user identity; `online` and `outcomes` drive the
`importTripsToSupabase` push. -/
def importTripsData (docs : List TripGraphDoc) (identityUserId : Option String)
    (online : Bool) (outcomes : List (SupaRes SupaTripRow)) (dxb : DB) :
    ImpRes × DB :=
  if docs = [] then
    ({ success := false,
       error := some "Invalid backup file: expected array of trip data" }, dxb)
  else
    let defaultUserId :=
      identityUserId <|> (dxb.users.rows.head?.bind (fun r => r.2.user_id))
    match importTripsDataLoop defaultUserId docs dxb [] with
    | .error (msg, dxb') => ({ success := false, error := some msg }, dxb')
    | .ok (dxb', payloads) =>
      let syncResults := importTripsToSupabase payloads online outcomes
      ({ success := true }, applySyncResults dxb' syncResults)

/-- A full-backup document for `importAllData`; the collections of a
version-checked backup are modelled as well-typed payload lists. -/
structure AllDoc where
  version : Option Nat := none
  users : Option (List UserItem) := none
  trips : Option (List TripItem) := none
  places : Option (List PlaceItem) := none
  itinerary : Option (List ItineraryItem) := none
  packing : Option (List PackingItem) := none
  travelers : Option (List TravelerItem) := none
  expenses : Option (List ExpenseItem) := none
deriving Repr, DecidableEq

/-- `table.clear()` (IndexedDB does not reset the key generator). -/
def Table.clearAll {α} (t : Table α) : Table α := { t with rows := [] }

/-- `importAllData(jsonString)` (dataExport.ts lines 83-116): reject a
document without a numeric `version` before touching the store; otherwise
clear every table and bulk-add whatever collections the document has. -/
def importAllData (doc : AllDoc) (dxb : DB) : ImpRes × DB :=
  match doc.version with
  | none =>
    ({ success := false, error := some "Invalid backup file: missing version" },
      dxb)
  | some _ =>
    ({ success := true },
      { users := (dxb.users.clearAll).bulkAdd (doc.users.getD [])
        trips := (dxb.trips.clearAll).bulkAdd (doc.trips.getD [])
        places := (dxb.places.clearAll).bulkAdd (doc.places.getD [])
        itinerary := (dxb.itinerary.clearAll).bulkAdd (doc.itinerary.getD [])
        packing := (dxb.packing.clearAll).bulkAdd (doc.packing.getD [])
        travelers := (dxb.travelers.clearAll).bulkAdd (doc.travelers.getD [])
        expenses := (dxb.expenses.clearAll).bulkAdd (doc.expenses.getD []) })

/-! ### Claims -/

/-- C10: when the connectivity oracle reports unreachable, or the trip
identifier argument is empty, `syncTripFromSupabase` returns without
touching the local cache store: every table is left exactly unchanged
(the returned store is the input store). -/
theorem c10_sync_offline_or_empty_id_frame (online : Bool) (tripId : String)
    (fetches : Option (Fetch SupaItineraryRow × Fetch SupaPackingRow ×
      Fetch SupaTravelerRow × Fetch SupaExpenseRow)) (dxb : DB)
    (h : online = false ∨ tripId = "") :
    syncTripFromSupabase online tripId fetches dxb = .ok dxb := by
  rcases h with h | h <;> subst h <;> simp [syncTripFromSupabase]

/-- Witness for C10 at a concrete input. -/
theorem c10_witness :
    syncTripFromSupabase false "trip-1" none DB.empty = .ok DB.empty :=
  c10_sync_offline_or_empty_id_frame false "trip-1" none DB.empty (Or.inl rfl)

/-- C8 counterexample: `getTrip` called online with a numeric local key
(which cannot be a remote key) still issues the remote request — its
result depends on the remote outcome (remote success is returned, remote
error falls back), so the claim that no network request is issued for
such identifiers is false. -/
theorem c8_counterexample :
    getTrip true (.n 5) (.ok { title := "T" }) DB.empty =
      .remote { title := "T" } ∧
    getTrip true (.n 5) .errRes DB.empty = .nothing := by
  exact ⟨rfl, rfl⟩

/-- C8 (amended): when the oracle reports reachable, `getTrip` and
`getPackingItems` always attempt the remote call, whatever the shape of
the identifier argument (it is stringified); on remote success the remote
result is returned for every identifier shape.  The shape check only
gates the cache fallback taken on a remote error. -/
theorem c8_remote_always_attempted :
    (∀ (k : JKey) (row : SupaTripRow) (dxb : DB),
      getTrip true k (.ok row) dxb = .remote row) ∧
    (∀ (tid : Option String) (rows : List SupaPackingRow) (dxb : DB),
      getPackingItems true tid (.ok rows) dxb = (rows.map packingRowToItem, dxb)) := by
  exact ⟨fun _ _ _ => rfl, fun _ _ _ => rfl⟩

/-- The behavior §4.2 of the spec describes for online reads, stated for
the packing list: overwrite the trip's slice of the local cache with the
fresh remote result (invalidate-then-repopulate) and return the remote
result.  Used only to exhibit that the source does something else. -/
def getPackingItemsSpecOverwrite (tid : String)
    (rows : List SupaPackingRow) (dxb : DB) : List PackingItem × DB :=
  let fresh := rows.map packingRowToItem
  (fresh,
    { dxb with packing :=
        (dxb.packing.delWhere (fun i => i.trip_id = some tid)).bulkAdd fresh })

/-- C4 counterexample: an online `getPackingItems` whose remote call
succeeds leaves the local cache store exactly as it was (the stale cached
row for the trip survives), while the claimed invalidate-then-repopulate
behavior would change it. -/
theorem c4_counterexample :
    (getPackingItems true (some "t")
        (.ok [{ packing_id := some "R", trip_id := some "t", title := "fresh",
                completed := true, order := 2 }])
        { DB.empty with packing :=
            ⟨[(1, { trip_id := some "t", title := "stale", completed := false,
                    order := 1 })], 2⟩ }).2 =
      { DB.empty with packing :=
          ⟨[(1, { trip_id := some "t", title := "stale", completed := false,
                  order := 1 })], 2⟩ } ∧
    (getPackingItemsSpecOverwrite "t"
        [{ packing_id := some "R", trip_id := some "t", title := "fresh",
           completed := true, order := 2 }]
        { DB.empty with packing :=
            ⟨[(1, { trip_id := some "t", title := "stale", completed := false,
                    order := 1 })], 2⟩ }).2 ≠
      { DB.empty with packing :=
          ⟨[(1, { trip_id := some "t", title := "stale", completed := false,
                  order := 1 })], 2⟩ } := by
  exact ⟨rfl, by decide⟩

/-- C4 (amended): when reachable and the remote call succeeds, every
embedded list read returns the mapped remote result directly — and leaves
the local cache store untouched (reads never repopulate the cache; slice
replacement happens only in the Full Trip Reconciler). -/
theorem c4_reads_return_remote_and_leave_cache :
    (∀ (tid : Option String) (rows : List SupaPackingRow) (dxb : DB),
      getPackingItems true tid (.ok rows) dxb = (rows.map packingRowToItem, dxb)) ∧
    (∀ (tid : Option String) (rows : List SupaTravelerRow) (dxb : DB),
      getTravelers true tid (.ok rows) dxb = (rows.map travelerRowToItem, dxb)) ∧
    (∀ (tid : Option String) (rows : List SupaItineraryRow) (dxb : DB),
      getItineraryItems true tid (.ok rows) dxb =
        (rows.map (fun item =>
          { itineraryRowToItem item with place_id := item.place_id }), dxb)) := by
  exact ⟨fun _ _ _ => rfl, fun _ _ _ => rfl, fun _ _ _ => rfl⟩

/-- The one-graph document of the C6 counterexample: a single expense
whose payer / charged-to old key `"9"` has no matching traveler. -/
def c6doc : List TripGraphDoc :=
  [{ trip := some { title := some "T" },
     travelers := some [],
     expenses := some
       [{ title := some "D", amount := some 5,
          payer_id := some (.s "9"), charged_to := some [.s "9"] }] }]

/-- C6 counterexample: importing a document whose only expense has a
payer old-key (`"9"`) absent from the (empty) traveler list leaves the
imported expense holding the stale old identifier `"9"` instead of
dropping it, and no traveler exists in the imported graph. -/
theorem c6_counterexample :
    ((importTripsData c6doc none false [] DB.empty).2.expenses.rows.map
        (fun r => r.2.payer_id)) = [some (JKey.s "9")] ∧
    (importTripsData c6doc none false [] DB.empty).2.travelers.rows = [] := by
  exact ⟨by decide, by decide⟩

/-- C6 (amended): in the expense remap `importTripsData` applies to every
imported expense, each surviving charged-to entry points into the range
of the traveler identifier map (the travelers created in the same
imported graph); a payer whose old key is in the map is remapped to the
mapped local key; but a payer whose old key is absent from the map is
left unchanged (holding the stale old identifier), not dropped. -/
theorem c6_import_expense_references (nt : String)
    (m : List (String × Nat)) (e : ExpenseDoc) :
    (∀ k ∈ ((importExpenseDoc nt m e).charged_to.getD []),
      ∃ n, k = JKey.n n ∧ n ∈ m.map (·.2)) ∧
    (∀ old, e.payer_id = some old → mapLookup m old.toStr = none →
      (importExpenseDoc nt m e).payer_id = some old) ∧
    (∀ old n, e.payer_id = some old → mapLookup m old.toStr = some n →
      (importExpenseDoc nt m e).payer_id = some (JKey.n n)) := by
  refine ⟨?_, ?_, ?_⟩
  · intro k hk
    rcases hct : e.charged_to with _ | l
    · simp [importExpenseDoc, hct] at hk
    · simp only [importExpenseDoc, hct, Option.map_some', Option.getD_some] at hk
      rcases List.mem_filterMap.mp hk with ⟨old, _, hmap⟩
      rcases Option.map_eq_some'.mp hmap with ⟨n, hfind, rfl⟩
      refine ⟨n, rfl, ?_⟩
      unfold mapLookup at hfind
      rcases Option.map_eq_some.mp hfind with ⟨entry, hent, rfl⟩
      exact List.mem_map_of_mem _ (List.mem_of_find?_eq_some hent)
  · intro old hpayer hnone
    simp [importExpenseDoc, hpayer, hnone]
  · intro old n hpayer hsome
    simp [importExpenseDoc, hpayer, hsome]

/-- Witness for C6 at a concrete input: map `[("1", 7)]`, an expense
charging old keys `"1"` (mapped) and `"2"` (unmapped), payer `"2"`
(unmapped, kept stale). -/
theorem c6_witness :
    (∃ n, JKey.n 7 = JKey.n n ∧ n ∈ [("1", 7)].map (Prod.snd)) ∧
    (importExpenseDoc "t" [("1", 7)]
      { payer_id := some (.s "2"),
        charged_to := some [.s "1", .s "2"] }).payer_id = some (.s "2") := by
  refine ⟨?_, ?_⟩
  · exact (c6_import_expense_references "t" [("1", 7)]
      { payer_id := some (.s "2"), charged_to := some [.s "1", .s "2"] }).1
      (JKey.n 7) (by decide)
  · exact (c6_import_expense_references "t" [("1", 7)]
      { payer_id := some (.s "2"), charged_to := some [.s "1", .s "2"] }).2.1
      (.s "2") rfl (by decide)

/-- C9 counterexample: importing a two-graph document whose second entry
lacks a `trip` object reports the descriptive failure, but the writes for
the first graph persist — the local store is *not* as it was before the
call. -/
theorem c9_counterexample :
    (importTripsData [{ trip := some { title := some "A" } }, { trip := none }]
        none false [] DB.empty).1 =
      { success := false, error := some "Invalid trip data: missing trip object" } ∧
    (importTripsData [{ trip := some { title := some "A" } }, { trip := none }]
        none false [] DB.empty).2 ≠ DB.empty ∧
    ((importTripsData [{ trip := some { title := some "A" } }, { trip := none }]
        none false [] DB.empty).2.trips.rows.map (fun r => r.2.title)) = ["A"] := by
  exact ⟨by decide, by decide, by decide⟩

/-- C9 (amended): validation failures are reported synchronously with a
descriptive result; no write is performed when the failure is detected
before any graph has been imported (missing version for `importAllData`;
an empty document or a *first* entry lacking a trip object for
`importTripsData`).  Writes for graphs imported before a later malformed
entry persist. -/
theorem c9_validation_failures (doc : AllDoc) (g : TripGraphDoc)
    (rest : List TripGraphDoc) (ident : Option String) (online : Bool)
    (outcomes : List (SupaRes SupaTripRow)) (dxb : DB)
    (hv : doc.version = none) (hg : g.trip = none) :
    importAllData doc dxb =
      ({ success := false, error := some "Invalid backup file: missing version" },
        dxb) ∧
    importTripsData [] ident online outcomes dxb =
      ({ success := false,
         error := some "Invalid backup file: expected array of trip data" },
        dxb) ∧
    importTripsData (g :: rest) ident online outcomes dxb =
      ({ success := false,
         error := some "Invalid trip data: missing trip object" }, dxb) := by
  refine ⟨?_, rfl, ?_⟩
  · simp [importAllData, hv]
  · simp [importTripsData, importTripsDataLoop, importTripGraph, hg]

/-- Witness for C9 at a concrete input. -/
theorem c9_witness :
    importAllData { version := none } DB.empty =
      ({ success := false, error := some "Invalid backup file: missing version" },
        DB.empty) ∧
    importTripsData [{ trip := none }] none true [] DB.empty =
      ({ success := false,
         error := some "Invalid trip data: missing trip object" }, DB.empty) := by
  have h := c9_validation_failures { version := none } { trip := none } []
    none true [] DB.empty rfl rfl
  exact ⟨h.1, h.2.2⟩

/-- C7 counterexample: with a synced trip cached locally under local key
1 and remote key `"u"`: (a) an online `deleteTrip` whose remote call
throws still deletes the local record (numeric argument) yet reports
*failure*, not success; (b) an online `deleteTrip` called with the remote
key whose remote delete succeeds leaves the local record in place. -/
theorem c7_counterexample :
    deleteTrip true (.n 1) .thrown
        { DB.empty with trips := ⟨[(1, { trip_id := some "u", title := "T" })], 2⟩ } =
      (false, { DB.empty with trips := ⟨[], 2⟩ }) ∧
    deleteTrip true (.s "u") .ok
        { DB.empty with trips := ⟨[(1, { trip_id := some "u", title := "T" })], 2⟩ } =
      (true,
        { DB.empty with trips := ⟨[(1, { trip_id := some "u", title := "T" })], 2⟩ }) := by
  exact ⟨by decide, by decide⟩

/-- C7 (amended): for the embedded deletes, when reachable the remote
delete is attempted with the stringified identifier, and: success is
reported iff the remote call returned without an error result (or, for
packing, the id argument was a local key with no remote key attached, in
which case only the local row is deleted); the local row is removed
exactly when the argument is a numeric local key and the remote call did
not return an error result; a thrown remote call removes the local row
(numeric argument) but reports failure, leaving the divergence for later
reconciliation. -/
theorem c7_delete_semantics (dxb : DB) (r : DelRes) (n : Nat) (s : String)
    (id0 : Nat) (hnokey : (dxb.packing.get id0).bind (fun i => i.packing_id) = none) :
    (deleteTrip true (.n n) .ok dxb = (true, { dxb with trips := dxb.trips.del n })) ∧
    (deleteTrip true (.s s) .ok dxb = (true, dxb)) ∧
    (deleteTrip true (.n n) .errRes dxb = (false, dxb)) ∧
    (deleteTrip true (.n n) .thrown dxb = (false, { dxb with trips := dxb.trips.del n })) ∧
    (deletePackingItem true (some (.s s)) .ok dxb =
      (if s = "" then (false, dxb) else (true, dxb))) ∧
    (∀ m : Nat, m ≠ 0 →
      deletePackingItem true (some (.n m)) .errRes dxb =
        (if (dxb.packing.get m).bind (fun i => i.packing_id) = none then
          (true, { dxb with packing := dxb.packing.del m })
        else (false, dxb))) ∧
    (id0 ≠ 0 → deletePackingItem true (some (.n id0)) r dxb =
      (true, { dxb with packing := dxb.packing.del id0 })) := by
  refine ⟨rfl, rfl, rfl, rfl, ?_, ?_, ?_⟩
  · by_cases hs : s = "" <;> simp [deletePackingItem, JKey.falsy, hs]
  · intro m hm
    rcases hopt : (dxb.packing.get m).bind (fun i => i.packing_id) with _ | v <;>
      simp [deletePackingItem, JKey.falsy, hm, hopt]
  · intro h0
    simp [deletePackingItem, JKey.falsy, h0, hnokey]

/-- Witness for C7 at a concrete input (empty store: local key 3 has no
remote key attached). -/
theorem c7_witness :
    deleteTrip true (.n 2) .ok DB.empty =
      (true, { DB.empty with trips := DB.empty.trips.del 2 }) ∧
    deletePackingItem true (some (.n 3)) .thrown DB.empty =
      (true, { DB.empty with packing := DB.empty.packing.del 3 }) := by
  have h := c7_delete_semantics DB.empty .thrown 2 "u" 3 (by decide)
  exact ⟨h.1, h.2.2.2.2.2.2 (by decide)⟩

/-! ### Table-level helper lemmas -/

/-- Rows after a bulk add: the old rows followed by the new payloads keyed
consecutively from the old `nextId`. -/
theorem Table.bulkAdd_rows {α} (t : Table α) (items : List α) :
    (t.bulkAdd items).rows = t.rows ++ List.enumFrom t.nextId items := by
  induction items generalizing t with
  | nil => simp [Table.bulkAdd, List.enumFrom]
  | cons a items ih =>
    show (Table.bulkAdd _ items).rows = _
    rw [ih]
    simp [Table.add, List.enumFrom]

/-- Key counter after a bulk add. -/
theorem Table.bulkAdd_nextId {α} (t : Table α) (items : List α) :
    (t.bulkAdd items).nextId = t.nextId + items.length := by
  induction items generalizing t with
  | nil => simp [Table.bulkAdd]
  | cons a items ih =>
    show (Table.bulkAdd _ items).nextId = _
    rw [ih]
    simp [Table.add]
    omega

/-- Deleting a slice then selecting it yields nothing. -/
theorem Table.selWhere_delWhere_self {α} (t : Table α) (p : α → Bool) :
    (t.delWhere (fun a => p a)).selWhere (fun a => p a) = [] := by
  rcases t with ⟨rows, n⟩
  induction rows with
  | nil => rfl
  | cons r rows ih =>
    rcases h : p r.2 <;>
      simpa [Table.delWhere, Table.selWhere, h] using ih

/-- A row outside the deleted slice survives `delWhere` followed by any
bulk add. -/
theorem Table.mem_delWhere_bulkAdd {α} (t : Table α) (p : α → Bool)
    (items : List α) (r : Nat × α) (hr : r ∈ t.rows) (hp : p r.2 = false) :
    r ∈ ((t.delWhere (fun a => p a)).bulkAdd items).rows := by
  rw [Table.bulkAdd_rows]
  refine List.mem_append_left _ ?_
  simp [Table.delWhere, List.mem_filter, hr, hp]

/-- A slice select after `delWhere` of the same slice and a bulk add is
exactly the added rows that lie in the slice. -/
theorem Table.selWhere_delWhere_bulkAdd {α} (t : Table α) (p : α → Bool)
    (items : List α) :
    ((t.delWhere (fun a => p a)).bulkAdd items).selWhere (fun a => p a) =
      (items.filter p) := by
  rw [Table.selWhere, Table.bulkAdd_rows, List.filter_append, List.map_append]
  have h1 : ((t.delWhere (fun a => p a)).rows.filter (fun r => p r.2)).map
      (fun r => r.2) = ([] : List α) := by
    have := Table.selWhere_delWhere_self t p
    simpa [Table.selWhere] using this
  rw [h1]
  have h2 : ∀ (n : Nat),
      ((List.enumFrom n items).filter (fun r => p r.2)).map (fun r => r.2) =
        items.filter p := by
    induction items with
    | nil => intro n; rfl
    | cons a items ih =>
      intro n
      rcases h : p a <;> simp [List.enumFrom, h, ih]
  simp [h2]

/-- C2 counterexample: online, with local itinerary and packing rows
cached for trip `"t"`, a reconciliation run in which the itinerary fetch
fails (error result) while the other three succeed empty is *not*
aborted: it resolves normally (no failure surfaced) and wipes every local
child row of the trip, including the itinerary row whose fetch failed. -/
theorem c2_counterexample :
    syncTripFromSupabase true "t" (some (.fail, .ok [], .ok [], .ok []))
        { DB.empty with
          itinerary := ⟨[(1, { trip_id := some "t", day_index := 0,
                               title := "I" })], 2⟩,
          packing := ⟨[(1, { trip_id := some "t", title := "P",
                             completed := false, order := 1 })], 2⟩ } =
      .ok { DB.empty with itinerary := ⟨[], 2⟩, packing := ⟨[], 2⟩ } := by
  rfl

/-- C2 (amended): a child fetch that *rejects* does abort the whole
reconciliation before any local write (the `Promise.all` rejection is
surfaced to the caller).  But a child fetch that *fails with an error
result* is only logged: the reconciliation still resolves normally with
no failure surfaced, the trip's local slice of the failed collection is
deleted and left empty, the slices of the successfully fetched
collections are replaced by the fetched rows, and rows belonging to other
trips survive untouched. -/
theorem c2_failed_fetch_still_reconciles (tripId : String)
    (itF : Fetch SupaItineraryRow) (pkF : Fetch SupaPackingRow)
    (tvF : Fetch SupaTravelerRow) (exF : Fetch SupaExpenseRow) (dxb : DB)
    (htrip : tripId ≠ "")
    (hfail : itF.failed ∨ pkF.failed ∨ tvF.failed ∨ exF.failed) :
    (syncTripFromSupabase true tripId none dxb =
      .error "one of the parallel fetches rejected") ∧
    ∃ dxb', syncTripFromSupabase true tripId (some (itF, pkF, tvF, exF)) dxb =
        .ok dxb' ∧
      (itF.failed →
        dxb'.itinerary.selWhere (fun i => i.trip_id = some tripId) = []) ∧
      (pkF.failed →
        dxb'.packing.selWhere (fun i => i.trip_id = some tripId) = []) ∧
      (tvF.failed →
        dxb'.travelers.selWhere (fun i => i.trip_id = some tripId) = []) ∧
      (exF.failed →
        dxb'.expenses.selWhere (fun i => i.trip_id = some tripId) = []) ∧
      (∀ r ∈ dxb.itinerary.rows, r.2.trip_id ≠ some tripId →
        r ∈ dxb'.itinerary.rows) ∧
      (∀ r ∈ dxb.packing.rows, r.2.trip_id ≠ some tripId →
        r ∈ dxb'.packing.rows) ∧
      (∀ r ∈ dxb.travelers.rows, r.2.trip_id ≠ some tripId →
        r ∈ dxb'.travelers.rows) ∧
      (∀ r ∈ dxb.expenses.rows, r.2.trip_id ≠ some tripId →
        r ∈ dxb'.expenses.rows) := by
  constructor
  · simp [syncTripFromSupabase, htrip]
  · refine ⟨{ dxb with
        itinerary := (dxb.itinerary.delWhere
          (fun i => i.trip_id = some tripId)).bulkAdd
          (itF.rowsOr.map itineraryRowToItem),
        packing := (dxb.packing.delWhere
          (fun i => i.trip_id = some tripId)).bulkAdd
          (pkF.rowsOr.map packingRowToItem),
        travelers := (dxb.travelers.delWhere
          (fun i => i.trip_id = some tripId)).bulkAdd
          (tvF.rowsOr.map travelerRowToItem),
        expenses := (dxb.expenses.delWhere
          (fun i => i.trip_id = some tripId)).bulkAdd
          (exF.rowsOr.map expenseRowToItem) },
      ?_, ?_, ?_, ?_, ?_, ?_, ?_, ?_, ?_⟩
    · simp [syncTripFromSupabase, htrip]
    · intro hf
      rcases itF with rows | _
      · simp [Fetch.failed] at hf
      · simpa [Fetch.rowsOr] using
          Table.selWhere_delWhere_bulkAdd dxb.itinerary
            (fun i => i.trip_id = some tripId) []
    · intro hf
      rcases pkF with rows | _
      · simp [Fetch.failed] at hf
      · simpa [Fetch.rowsOr] using
          Table.selWhere_delWhere_bulkAdd dxb.packing
            (fun i => i.trip_id = some tripId) []
    · intro hf
      rcases tvF with rows | _
      · simp [Fetch.failed] at hf
      · simpa [Fetch.rowsOr] using
          Table.selWhere_delWhere_bulkAdd dxb.travelers
            (fun i => i.trip_id = some tripId) []
    · intro hf
      rcases exF with rows | _
      · simp [Fetch.failed] at hf
      · simpa [Fetch.rowsOr] using
          Table.selWhere_delWhere_bulkAdd dxb.expenses
            (fun i => i.trip_id = some tripId) []
    · intro r hr hne
      exact Table.mem_delWhere_bulkAdd _ _ _ r hr (by simpa using hne)
    · intro r hr hne
      exact Table.mem_delWhere_bulkAdd _ _ _ r hr (by simpa using hne)
    · intro r hr hne
      exact Table.mem_delWhere_bulkAdd _ _ _ r hr (by simpa using hne)
    · intro r hr hne
      exact Table.mem_delWhere_bulkAdd _ _ _ r hr (by simpa using hne)

/-- Witness for C2 at a concrete input (failing travelers fetch). -/
theorem c2_witness :
    ("t" : String) ≠ "" ∧
    ∃ dxb', syncTripFromSupabase true "t" (some (.ok [], .ok [], .fail, .ok []))
        DB.empty = .ok dxb' ∧
      dxb'.travelers.selWhere (fun i => i.trip_id = some "t") = [] := by
  refine ⟨by decide, ?_⟩
  obtain ⟨dxb', hok, _, _, htv, _⟩ :=
    (c2_failed_fetch_still_reconciles "t" (.ok []) (.ok []) .fail (.ok [])
      DB.empty (by decide) (by simp [Fetch.failed])).2
  exact ⟨dxb', hok, htv (by simp [Fetch.failed])⟩

/-! ### Promotion rewrite: abstract view of the per-table foreign-key
rewrite performed by `applySyncResults` -/

/-- The `(local id, remote id)` pairs of the results the promotion loop
acts on (results missing either id are skipped). -/
def syncPairs (rs : List SyncResult) : List (String × String) :=
  rs.filterMap (fun r =>
    match r.localTripId, r.supaTripId with
    | some l, some s => some (l, s)
    | _, _ => none)

/-- One table's rewrite for one promotion pair, abstracted over how the
trip reference is read (`ref`) and rewritten (`upd`). -/
def promoteRows {α} (ref : α → Option String) (upd : String → α → α)
    (l s : String) (rows : List (Nat × α)) : List (Nat × α) :=
  rows.map (fun r => if ref r.2 = some l then (r.1, upd s r.2) else r)

/-- One table's rewrite over a whole list of promotion pairs. -/
def promoteFold {α} (ref : α → Option String) (upd : String → α → α)
    (ps : List (String × String)) (rows : List (Nat × α)) : List (Nat × α) :=
  ps.foldl (fun acc p => promoteRows ref upd p.1 p.2 acc) rows

/-- `applySyncResults` acts on every table as the abstract promote fold. -/
theorem applySyncResults_fields (dxb : DB) (rs : List SyncResult) :
    (applySyncResults dxb rs).trips.rows =
      promoteFold TripItem.trip_id
        (fun s t => { t with trip_id := some s, issync := some true })
        (syncPairs rs) dxb.trips.rows ∧
    (applySyncResults dxb rs).places.rows =
      promoteFold PlaceItem.trip_id
        (fun s p => { p with trip_id := some s }) (syncPairs rs) dxb.places.rows ∧
    (applySyncResults dxb rs).itinerary.rows =
      promoteFold ItineraryItem.trip_id
        (fun s i => { i with trip_id := some s }) (syncPairs rs)
        dxb.itinerary.rows ∧
    (applySyncResults dxb rs).packing.rows =
      promoteFold PackingItem.trip_id
        (fun s p => { p with trip_id := some s }) (syncPairs rs)
        dxb.packing.rows ∧
    (applySyncResults dxb rs).travelers.rows =
      promoteFold TravelerItem.trip_id
        (fun s t => { t with trip_id := some s }) (syncPairs rs)
        dxb.travelers.rows ∧
    (applySyncResults dxb rs).expenses.rows =
      promoteFold ExpenseItem.trip_id
        (fun s e => { e with trip_id := some s }) (syncPairs rs)
        dxb.expenses.rows := by
  induction rs generalizing dxb with
  | nil => exact ⟨rfl, rfl, rfl, rfl, rfl, rfl⟩
  | cons r rs ih =>
    rcases hl : r.localTripId with _ | l <;>
      rcases hs : r.supaTripId with _ | s <;>
      · have hstep := ih (applySyncResults dxb [r])
        simpa [applySyncResults, applySyncResult, syncPairs, hl, hs,
          promoteFold, promoteRows, Table.modifyWhere] using
          ih _

/-- After one promote pass for `(l, s)` with `s ≠ l`, no row references
`l` (given that `upd` stamps the written reference). -/
theorem promoteRows_no_old {α} (ref : α → Option String)
    (upd : String → α → α) (l s : String) (rows : List (Nat × α))
    (hsl : s ≠ l) (href : ∀ s' a, ref (upd s' a) = some s') :
    ∀ r ∈ promoteRows ref upd l s rows, ref r.2 ≠ some l := by
  intro r hr
  rcases List.mem_map.mp hr with ⟨q, _, rfl⟩
  by_cases hq : ref q.2 = some l <;> simp [hq, href, hsl]

/-- Later promote passes whose new keys avoid `l` never reintroduce an
`l` reference. -/
theorem promoteFold_no_old {α} (ref : α → Option String)
    (upd : String → α → α) (l : String) (ps : List (String × String))
    (rows : List (Nat × α)) (h1 : ∀ p ∈ ps, p.2 ≠ l)
    (href : ∀ s' a, ref (upd s' a) = some s')
    (h0 : ∀ r ∈ rows, ref r.2 ≠ some l) :
    ∀ r ∈ promoteFold ref upd ps rows, ref r.2 ≠ some l := by
  induction ps generalizing rows with
  | nil => exact h0
  | cons p ps ih =>
    refine ih _ (fun q hq => h1 q (List.mem_cons_of_mem _ hq)) ?_
    intro r hr
    rcases List.mem_map.mp hr with ⟨q, hq, rfl⟩
    by_cases hql : ref q.2 = some p.1
    · simpa [hql, href] using
        fun hcon => h1 p (List.mem_cons_self _ _) (by simpa using hcon.symm ▸ rfl)
    · simpa [hql] using h0 q hq

/-- A row whose reference never matches any pass's local key survives the
whole fold unchanged. -/
theorem promoteFold_untouched {α} (ref : α → Option String)
    (upd : String → α → α) (ps : List (String × String))
    (rows : List (Nat × α)) (r : Nat × α) (hr : r ∈ rows)
    (havoid : ∀ p ∈ ps, ref r.2 ≠ some p.1) :
    r ∈ promoteFold ref upd ps rows := by
  induction ps generalizing rows with
  | nil => exact hr
  | cons p ps ih =>
    refine ih _ ?_ (fun q hq => havoid q (List.mem_cons_of_mem _ hq))
    have himg : (if ref r.2 = some p.1 then (r.1, upd p.2 r.2) else r) ∈
        promoteRows ref upd p.1 p.2 rows := List.mem_map_of_mem _ hr
    simpa [havoid p (List.mem_cons_self _ _)] using himg

/-- The central promote-fold property: with a pass `(l, s)` present, no
pass writing `l`, every pass reading `l` writing `s`, and no pass reading
`s`, the fold removes every `l` reference and sends each old `l` row to
its `s`-stamped rewrite under the same local key. -/
theorem promoteFold_promotes {α} (ref : α → Option String)
    (upd : String → α → α) (l s : String) (ps : List (String × String))
    (rows : List (Nat × α)) (hmem : (l, s) ∈ ps) (hsl : s ≠ l)
    (h1 : ∀ p ∈ ps, p.2 ≠ l) (h2 : ∀ p ∈ ps, p.1 = l → p.2 = s)
    (h3 : ∀ p ∈ ps, p.1 ≠ s) (href : ∀ s' a, ref (upd s' a) = some s') :
    (∀ r ∈ promoteFold ref upd ps rows, ref r.2 ≠ some l) ∧
    (∀ r ∈ rows, ref r.2 = some l →
      (r.1, upd s r.2) ∈ promoteFold ref upd ps rows) := by
  induction ps generalizing rows with
  | nil => cases hmem
  | cons p ps ih =>
    by_cases hpl : p.1 = l
    · have hps : p.2 = s := h2 p (List.mem_cons_self _ _) hpl
      have hrw : promoteFold ref upd (p :: ps) rows =
          promoteFold ref upd ps (promoteRows ref upd l s rows) := by
        show promoteFold ref upd ps (promoteRows ref upd p.1 p.2 rows) = _
        rw [hpl, hps]
      constructor
      · rw [hrw]
        exact promoteFold_no_old ref upd l ps _
          (fun q hq => h1 q (List.mem_cons_of_mem _ hq)) href
          (promoteRows_no_old ref upd l s rows hsl href)
      · intro r hr hrl
        rw [hrw]
        have himg : (r.1, upd s r.2) ∈ promoteRows ref upd l s rows := by
          have h0 : (if ref r.2 = some l then (r.1, upd s r.2) else r) ∈
              promoteRows ref upd l s rows :=
            List.mem_map_of_mem _ hr
          rw [if_pos hrl] at h0
          exact h0
        exact promoteFold_untouched ref upd ps _ _ himg
          (fun q hq => by
            simp only [href]
            exact fun hcon => h3 q (List.mem_cons_of_mem _ hq)
              (by simpa using hcon.symm))
    · have hmem' : (l, s) ∈ ps := by
        rcases List.mem_cons.mp hmem with h | h
        · cases h; exact absurd rfl hpl
        · exact h
      have ihs := ih (promoteRows ref upd p.1 p.2 rows) hmem'
        (fun q hq => h1 q (List.mem_cons_of_mem _ hq))
        (fun q hq => h2 q (List.mem_cons_of_mem _ hq))
        (fun q hq => h3 q (List.mem_cons_of_mem _ hq))
      constructor
      · exact ihs.1
      · intro r hr hrl
        have hrmem : r ∈ promoteRows ref upd p.1 p.2 rows := by
          have hne : ref r.2 ≠ some p.1 := by
            rw [hrl]
            intro hcon
            exact hpl (Option.some_inj.mp hcon).symm
          have h0 : (if ref r.2 = some p.1 then (r.1, upd p.2 r.2) else r) ∈
              promoteRows ref upd p.1 p.2 rows :=
            List.mem_map_of_mem _ hr
          rw [if_neg hne] at h0
          exact h0
        exact ihs.2 r hrmem hrl

/-- C3: after a locally-created trip is promoted (a successful remote
write yields the pair `(l, s)` among the sync results, `s ≠ l`, with — as
`importTripsData` guarantees — no other result writing local key `l` or
reading the fresh remote key `s`), the rewrite loop leaves zero child
records referencing the old local key `l`, and every child record that
referenced `l` now carries exactly the new remote key `s` under its
unchanged local key.  In this sequential embedding the whole rewrite is
one atomic step, executed immediately after the remote write succeeds. -/
theorem c3_promotion_rewrites_children (dxb : DB) (rs : List SyncResult)
    (l s : String) (hmem : (l, s) ∈ syncPairs rs) (hsl : s ≠ l)
    (h1 : ∀ p ∈ syncPairs rs, p.2 ≠ l)
    (h2 : ∀ p ∈ syncPairs rs, p.1 = l → p.2 = s)
    (h3 : ∀ p ∈ syncPairs rs, p.1 ≠ s) :
    (∀ r ∈ (applySyncResults dxb rs).places.rows, r.2.trip_id ≠ some l) ∧
    (∀ r ∈ dxb.places.rows, r.2.trip_id = some l →
      (r.1, { r.2 with trip_id := some s }) ∈ (applySyncResults dxb rs).places.rows) ∧
    (∀ r ∈ (applySyncResults dxb rs).itinerary.rows, r.2.trip_id ≠ some l) ∧
    (∀ r ∈ dxb.itinerary.rows, r.2.trip_id = some l →
      (r.1, { r.2 with trip_id := some s }) ∈ (applySyncResults dxb rs).itinerary.rows) ∧
    (∀ r ∈ (applySyncResults dxb rs).packing.rows, r.2.trip_id ≠ some l) ∧
    (∀ r ∈ dxb.packing.rows, r.2.trip_id = some l →
      (r.1, { r.2 with trip_id := some s }) ∈ (applySyncResults dxb rs).packing.rows) ∧
    (∀ r ∈ (applySyncResults dxb rs).travelers.rows, r.2.trip_id ≠ some l) ∧
    (∀ r ∈ dxb.travelers.rows, r.2.trip_id = some l →
      (r.1, { r.2 with trip_id := some s }) ∈ (applySyncResults dxb rs).travelers.rows) ∧
    (∀ r ∈ (applySyncResults dxb rs).expenses.rows, r.2.trip_id ≠ some l) ∧
    (∀ r ∈ dxb.expenses.rows, r.2.trip_id = some l →
      (r.1, { r.2 with trip_id := some s }) ∈ (applySyncResults dxb rs).expenses.rows) := by
  obtain ⟨-, hpl, hit, hpk, htv, hex⟩ := applySyncResults_fields dxb rs
  have Hpl := promoteFold_promotes PlaceItem.trip_id
    (fun s p => { p with trip_id := some s }) l s (syncPairs rs)
    dxb.places.rows hmem hsl h1 h2 h3 (fun _ _ => rfl)
  have Hit := promoteFold_promotes ItineraryItem.trip_id
    (fun s i => { i with trip_id := some s }) l s (syncPairs rs)
    dxb.itinerary.rows hmem hsl h1 h2 h3 (fun _ _ => rfl)
  have Hpk := promoteFold_promotes PackingItem.trip_id
    (fun s p => { p with trip_id := some s }) l s (syncPairs rs)
    dxb.packing.rows hmem hsl h1 h2 h3 (fun _ _ => rfl)
  have Htv := promoteFold_promotes TravelerItem.trip_id
    (fun s t => { t with trip_id := some s }) l s (syncPairs rs)
    dxb.travelers.rows hmem hsl h1 h2 h3 (fun _ _ => rfl)
  have Hex := promoteFold_promotes ExpenseItem.trip_id
    (fun s e => { e with trip_id := some s }) l s (syncPairs rs)
    dxb.expenses.rows hmem hsl h1 h2 h3 (fun _ _ => rfl)
  rw [hpl, hit, hpk, htv, hex]
  exact ⟨Hpl.1, Hpl.2, Hit.1, Hit.2, Hpk.1, Hpk.2, Htv.1, Htv.2, Hex.1, Hex.2⟩

/-- The packing row of the C3 witness (referencing local trip key `"1"`). -/
def c3row : PackingItem :=
  { trip_id := some "1", title := "P", completed := false, order := 1 }

/-- The store of the C3 witness: one packing row for local trip `"1"`. -/
def c3db : DB :=
  { DB.empty with packing := ⟨[(1, c3row)], 2⟩ }

/-- Witness for C3 at a concrete input: one promoted trip (local `"1"`,
remote `"u"`), one packing row referencing `"1"`. -/
theorem c3_witness :
    (∀ r ∈ (applySyncResults c3db
        [{ localTripId := some "1", supaTripId := some "u" }]).packing.rows,
      r.2.trip_id ≠ some "1") ∧
    ((1 : Nat), { c3row with trip_id := some "u" }) ∈ (applySyncResults c3db
        [{ localTripId := some "1", supaTripId := some "u" }]).packing.rows := by
  have h := c3_promotion_rewrites_children c3db
    [{ localTripId := some "1", supaTripId := some "u" }] "1" "u"
    (by decide) (by decide) (by decide) (by decide) (by decide)
  refine ⟨h.2.2.2.2.1, ?_⟩
  exact h.2.2.2.2.2.1 (1, c3row) (by decide) rfl

/-! ### Round trip (C1): characterizing the import of one exported graph -/

/-- Keys already handed out are below the counter (true of every store
the embedded operations build, and preserved by them). -/
def Table.wfKeys {α} (t : Table α) : Prop :=
  ∀ r ∈ t.rows, r.1 < t.nextId

/-- All seven tables have well-formed keys. -/
def DB.wfKeys (dxb : DB) : Prop :=
  dxb.users.wfKeys ∧ dxb.trips.wfKeys ∧ dxb.places.wfKeys ∧
  dxb.itinerary.wfKeys ∧ dxb.packing.wfKeys ∧ dxb.travelers.wfKeys ∧
  dxb.expenses.wfKeys

/-- `add` then `update` of the fresh key rewrites only the new row. -/
theorem Table.add_update_fresh {α} (t : Table α) (a : α) (f : α → α)
    (hwf : t.wfKeys) :
    ((t.add a).2.update t.nextId f).rows = t.rows ++ [(t.nextId, f a)] := by
  have hrows : ((t.add a).2.update t.nextId f).rows =
      (t.rows ++ [(t.nextId, a)]).map
        (fun r => if r.1 = t.nextId then (r.1, f r.2) else r) := rfl
  rw [hrows, List.map_append]
  congr 1
  · conv_rhs => rw [← List.map_id t.rows]
    refine List.map_congr_left (fun r hr => ?_)
    have hlt := hwf r hr
    have hne : r.1 ≠ t.nextId := by omega
    simp [hne]
  · simp

/-- `add` then `update` leaves the counter one past the fresh key. -/
theorem Table.add_update_nextId {α} (t : Table α) (a : α) (f : α → α) :
    ((t.add a).2.update t.nextId f).nextId = t.nextId + 1 := rfl

/-- `mapInsert` of an absent key is an append. -/
theorem mapInsert_eq_append {β} (m : List (String × β)) (k : String) (v : β)
    (h : ∀ e ∈ m, e.1 ≠ k) : mapInsert m k v = m ++ [(k, v)] := by
  unfold mapInsert
  congr 1
  exact List.filter_eq_self.mpr (fun e he => by simpa using h e he)

/-- Looking up a key in the assoc list built by an indexed scan: the
first entry wins, which corresponds to the first element whose id
matches, at offset `findIdx` from the starting key. -/
theorem mapLookup_enumFrom_built {β γ} (oid : β → Option String)
    (g : Nat → γ) (ds : List β) (v0 : Nat) (κ : String)
    (hmem : ∃ b ∈ ds, oid b = some κ) :
    mapLookup ((List.enumFrom v0 ds).filterMap
        (fun q => (oid q.2).map (fun k => (k, g q.1)))) κ =
      some (g (v0 + ds.findIdx (fun b => oid b = some κ))) := by
  induction ds generalizing v0 with
  | nil => rcases hmem with ⟨b, hb, -⟩; cases hb
  | cons b ds ih =>
    simp only [List.enumFrom, List.filterMap_cons, List.findIdx_cons]
    rcases hb : oid b with _ | k
    · have hmem' : ∃ b' ∈ ds, oid b' = some κ := by
        rcases hmem with ⟨b', hb', hk'⟩
        rcases List.mem_cons.mp hb' with rfl | hb''
        · rw [hb] at hk'; cases hk'
        · exact ⟨b', hb'', hk'⟩
      have harith : v0 + 1 + List.findIdx (fun b => oid b = some κ) ds =
          v0 + (List.findIdx (fun b => oid b = some κ) ds + 1) := by omega
      simpa [harith] using ih (v0 + 1) hmem'
    · by_cases hk : k = κ
      · subst hk
        simp [mapLookup]
      · have hmem' : ∃ b' ∈ ds, oid b' = some κ := by
          rcases hmem with ⟨b', hb', hk'⟩
          rcases List.mem_cons.mp hb' with rfl | hb''
          · rw [hb] at hk'
            exact absurd (Option.some_inj.mp hk') hk
          · exact ⟨b', hb'', hk'⟩
        have harith : v0 + 1 + List.findIdx (fun b => oid b = some κ) ds =
            v0 + (List.findIdx (fun b => oid b = some κ) ds + 1) := by omega
        simpa [mapLookup, hk, harith] using ih (v0 + 1) hmem'

/-- The record `importPlaceDoc` leaves in the store for document `p`
inserted under fresh key `i`. -/
def placeImported (nt : String) (p : PlaceDoc) (i : Nat) : PlaceItem :=
  { place_id := some (toString i)
    issync := p.issync
    trip_id := some nt
    title := p.title.getD "Untitled Place"
    lat := p.lat, lng := p.lng, url := p.url }

/-- The record `importTravelerDoc` leaves in the store for document `t`
inserted under fresh key `i`. -/
def travImported (nt : String) (t : TravelerDoc) (i : Nat) : TravelerItem :=
  { traveler_id := some (toString i)
    issync := t.issync
    trip_id := some nt
    name := t.name.getD "Traveler"
    email := t.email, icon := t.icon }

/-- Characterization of the place-import fold: fresh consecutive keys,
documents imported in order, id map extended by an entry per document
carrying an old id (append form thanks to distinctness). -/
theorem importPlaceDoc_foldl (nt : String) (ds : List PlaceDoc) (dxb : DB)
    (m : List (String × String)) (hwf : dxb.places.wfKeys)
    (hnodup : (ds.filterMap (fun p => p.place_id)).Nodup)
    (hdisj : ∀ e ∈ m, ∀ p ∈ ds, p.place_id ≠ some e.1) :
    (ds.foldl (importPlaceDoc nt) (dxb, m)).1.places.rows =
      dxb.places.rows ++ (List.enumFrom dxb.places.nextId ds).map
        (fun q => (q.1, placeImported nt q.2 q.1)) ∧
    (ds.foldl (importPlaceDoc nt) (dxb, m)).1.places.nextId =
      dxb.places.nextId + ds.length ∧
    (ds.foldl (importPlaceDoc nt) (dxb, m)).2 =
      m ++ (List.enumFrom dxb.places.nextId ds).filterMap
        (fun q => q.2.place_id.map (fun k => (k, toString q.1))) ∧
    (ds.foldl (importPlaceDoc nt) (dxb, m)).1.users = dxb.users ∧
    (ds.foldl (importPlaceDoc nt) (dxb, m)).1.trips = dxb.trips ∧
    (ds.foldl (importPlaceDoc nt) (dxb, m)).1.itinerary = dxb.itinerary ∧
    (ds.foldl (importPlaceDoc nt) (dxb, m)).1.packing = dxb.packing ∧
    (ds.foldl (importPlaceDoc nt) (dxb, m)).1.travelers = dxb.travelers ∧
    (ds.foldl (importPlaceDoc nt) (dxb, m)).1.expenses = dxb.expenses := by
  induction ds generalizing dxb m with
  | nil => simp [List.enumFrom]
  | cons p ds ih =>
    have hrows₁ : (importPlaceDoc nt (dxb, m) p).1.places.rows =
        dxb.places.rows ++ [(dxb.places.nextId, placeImported nt p dxb.places.nextId)] :=
      Table.add_update_fresh dxb.places _ _ hwf
    have hnext₁ : (importPlaceDoc nt (dxb, m) p).1.places.nextId =
        dxb.places.nextId + 1 := rfl
    have hwf₁ : (importPlaceDoc nt (dxb, m) p).1.places.wfKeys := by
      intro r hr
      rw [hrows₁] at hr
      rw [hnext₁]
      rcases List.mem_append.mp hr with h | h
      · exact Nat.lt_succ_of_lt (hwf r h)
      · rw [List.mem_singleton] at h
        subst h
        exact Nat.lt_succ_self _
    have hnodup' : (ds.filterMap (fun p => p.place_id)).Nodup := by
      rcases hpid : p.place_id with _ | old
      · simpa [hpid] using hnodup
      · exact (List.nodup_cons.mp (by simpa [hpid] using hnodup)).2
    have hm₁ : (importPlaceDoc nt (dxb, m) p).2 =
        m ++ (match p.place_id with
          | some old => [(old, toString dxb.places.nextId)]
          | none => []) := by
      rcases hpid : p.place_id with _ | old
      · show (match p.place_id with
          | some old => mapInsert m old (toString dxb.places.nextId)
          | none => m) = _
        rw [hpid]
        simp
      · show (match p.place_id with
          | some old => mapInsert m old (toString dxb.places.nextId)
          | none => m) = _
        rw [hpid]
        exact mapInsert_eq_append m old _
          (fun e he hcon => hdisj e he p (List.mem_cons_self _ _) (hcon ▸ hpid))
    have hdisj' : ∀ e ∈ (importPlaceDoc nt (dxb, m) p).2, ∀ q ∈ ds,
        q.place_id ≠ some e.1 := by
      intro e he q hq hcon
      rw [hm₁] at he
      rcases List.mem_append.mp he with h | h
      · exact hdisj e h q (List.mem_cons_of_mem _ hq) hcon
      · rcases hpid : p.place_id with _ | old
        · rw [hpid] at h; cases h
        · rw [hpid] at h
          rw [List.mem_singleton] at h
          have hcons : (old :: ds.filterMap (fun p => p.place_id)).Nodup := by
            simpa [hpid] using hnodup
          have hmem : old ∈ ds.filterMap (fun p => p.place_id) := by
            refine List.mem_filterMap.mpr ⟨q, hq, ?_⟩
            simp [hcon, h]
          exact (List.nodup_cons.mp hcons).1 hmem
    have ihs := ih (importPlaceDoc nt (dxb, m) p).1
      (importPlaceDoc nt (dxb, m) p).2 hwf₁ hnodup' hdisj'
    obtain ⟨i1, i2, i3, i4, i5, i6, i7, i8, i9⟩ := ihs
    refine ⟨?_, ?_, ?_, ?_, ?_, ?_, ?_, ?_, ?_⟩
    · show (List.foldl (importPlaceDoc nt) (importPlaceDoc nt (dxb, m) p) ds).1.places.rows = _
      rw [show List.foldl (importPlaceDoc nt) (importPlaceDoc nt (dxb, m) p) ds =
        List.foldl (importPlaceDoc nt)
          ((importPlaceDoc nt (dxb, m) p).1, (importPlaceDoc nt (dxb, m) p).2) ds
        from by rfl] at *
      rw [i1, hrows₁, hnext₁]
      simp [List.enumFrom]
    · show (List.foldl (importPlaceDoc nt) (importPlaceDoc nt (dxb, m) p) ds).1.places.nextId = _
      rw [show List.foldl (importPlaceDoc nt) (importPlaceDoc nt (dxb, m) p) ds =
        List.foldl (importPlaceDoc nt)
          ((importPlaceDoc nt (dxb, m) p).1, (importPlaceDoc nt (dxb, m) p).2) ds
        from by rfl] at *
      rw [i2, hnext₁]
      simp
      omega
    · show (List.foldl (importPlaceDoc nt) (importPlaceDoc nt (dxb, m) p) ds).2 = _
      rw [show List.foldl (importPlaceDoc nt) (importPlaceDoc nt (dxb, m) p) ds =
        List.foldl (importPlaceDoc nt)
          ((importPlaceDoc nt (dxb, m) p).1, (importPlaceDoc nt (dxb, m) p).2) ds
        from by rfl] at *
      rw [i3, hm₁, hnext₁]
      rcases hpid : p.place_id with _ | old <;>
        simp [List.enumFrom, hpid]
    · exact i4
    · exact i5
    · exact i6
    · exact i7
    · exact i8
    · exact i9

/-- Characterization of the traveler-import fold (the id map carries the
fresh numeric keys). -/
theorem importTravelerDoc_foldl (nt : String) (ds : List TravelerDoc) (dxb : DB)
    (m : List (String × Nat)) (hwf : dxb.travelers.wfKeys)
    (hnodup : (ds.filterMap (fun t => t.traveler_id)).Nodup)
    (hdisj : ∀ e ∈ m, ∀ t ∈ ds, t.traveler_id ≠ some e.1) :
    (ds.foldl (importTravelerDoc nt) (dxb, m)).1.travelers.rows =
      dxb.travelers.rows ++ (List.enumFrom dxb.travelers.nextId ds).map
        (fun q => (q.1, travImported nt q.2 q.1)) ∧
    (ds.foldl (importTravelerDoc nt) (dxb, m)).1.travelers.nextId =
      dxb.travelers.nextId + ds.length ∧
    (ds.foldl (importTravelerDoc nt) (dxb, m)).2 =
      m ++ (List.enumFrom dxb.travelers.nextId ds).filterMap
        (fun q => q.2.traveler_id.map (fun k => (k, q.1))) ∧
    (ds.foldl (importTravelerDoc nt) (dxb, m)).1.users = dxb.users ∧
    (ds.foldl (importTravelerDoc nt) (dxb, m)).1.trips = dxb.trips ∧
    (ds.foldl (importTravelerDoc nt) (dxb, m)).1.itinerary = dxb.itinerary ∧
    (ds.foldl (importTravelerDoc nt) (dxb, m)).1.packing = dxb.packing ∧
    (ds.foldl (importTravelerDoc nt) (dxb, m)).1.places = dxb.places ∧
    (ds.foldl (importTravelerDoc nt) (dxb, m)).1.expenses = dxb.expenses := by
  induction ds generalizing dxb m with
  | nil => simp [List.enumFrom]
  | cons p ds ih =>
    have hrows₁ : (importTravelerDoc nt (dxb, m) p).1.travelers.rows =
        dxb.travelers.rows ++
          [(dxb.travelers.nextId, travImported nt p dxb.travelers.nextId)] :=
      Table.add_update_fresh dxb.travelers _ _ hwf
    have hnext₁ : (importTravelerDoc nt (dxb, m) p).1.travelers.nextId =
        dxb.travelers.nextId + 1 := rfl
    have hwf₁ : (importTravelerDoc nt (dxb, m) p).1.travelers.wfKeys := by
      intro r hr
      rw [hrows₁] at hr
      rw [hnext₁]
      rcases List.mem_append.mp hr with h | h
      · exact Nat.lt_succ_of_lt (hwf r h)
      · rw [List.mem_singleton] at h
        subst h
        exact Nat.lt_succ_self _
    have hnodup' : (ds.filterMap (fun t => t.traveler_id)).Nodup := by
      rcases hpid : p.traveler_id with _ | old
      · simpa [hpid] using hnodup
      · exact (List.nodup_cons.mp (by simpa [hpid] using hnodup)).2
    have hm₁ : (importTravelerDoc nt (dxb, m) p).2 =
        m ++ (match p.traveler_id with
          | some old => [(old, dxb.travelers.nextId)]
          | none => []) := by
      rcases hpid : p.traveler_id with _ | old
      · show (match p.traveler_id with
          | some old => mapInsert m old dxb.travelers.nextId
          | none => m) = _
        rw [hpid]
        simp
      · show (match p.traveler_id with
          | some old => mapInsert m old dxb.travelers.nextId
          | none => m) = _
        rw [hpid]
        exact mapInsert_eq_append m old _
          (fun e he hcon => hdisj e he p (List.mem_cons_self _ _) (hcon ▸ hpid))
    have hdisj' : ∀ e ∈ (importTravelerDoc nt (dxb, m) p).2, ∀ q ∈ ds,
        q.traveler_id ≠ some e.1 := by
      intro e he q hq hcon
      rw [hm₁] at he
      rcases List.mem_append.mp he with h | h
      · exact hdisj e h q (List.mem_cons_of_mem _ hq) hcon
      · rcases hpid : p.traveler_id with _ | old
        · rw [hpid] at h; cases h
        · rw [hpid] at h
          rw [List.mem_singleton] at h
          have hcons : (old :: ds.filterMap (fun t => t.traveler_id)).Nodup := by
            simpa [hpid] using hnodup
          have hmem : old ∈ ds.filterMap (fun t => t.traveler_id) := by
            refine List.mem_filterMap.mpr ⟨q, hq, ?_⟩
            simp [hcon, h]
          exact (List.nodup_cons.mp hcons).1 hmem
    have ihs := ih (importTravelerDoc nt (dxb, m) p).1
      (importTravelerDoc nt (dxb, m) p).2 hwf₁ hnodup' hdisj'
    obtain ⟨i1, i2, i3, i4, i5, i6, i7, i8, i9⟩ := ihs
    refine ⟨?_, ?_, ?_, ?_, ?_, ?_, ?_, ?_, ?_⟩
    · show (List.foldl (importTravelerDoc nt)
        (importTravelerDoc nt (dxb, m) p) ds).1.travelers.rows = _
      rw [show List.foldl (importTravelerDoc nt) (importTravelerDoc nt (dxb, m) p) ds =
        List.foldl (importTravelerDoc nt)
          ((importTravelerDoc nt (dxb, m) p).1, (importTravelerDoc nt (dxb, m) p).2) ds
        from by rfl] at *
      rw [i1, hrows₁, hnext₁]
      simp [List.enumFrom]
    · show (List.foldl (importTravelerDoc nt)
        (importTravelerDoc nt (dxb, m) p) ds).1.travelers.nextId = _
      rw [show List.foldl (importTravelerDoc nt) (importTravelerDoc nt (dxb, m) p) ds =
        List.foldl (importTravelerDoc nt)
          ((importTravelerDoc nt (dxb, m) p).1, (importTravelerDoc nt (dxb, m) p).2) ds
        from by rfl] at *
      rw [i2, hnext₁]
      simp
      omega
    · show (List.foldl (importTravelerDoc nt)
        (importTravelerDoc nt (dxb, m) p) ds).2 = _
      rw [show List.foldl (importTravelerDoc nt) (importTravelerDoc nt (dxb, m) p) ds =
        List.foldl (importTravelerDoc nt)
          ((importTravelerDoc nt (dxb, m) p).1, (importTravelerDoc nt (dxb, m) p).2) ds
        from by rfl] at *
      rw [i3, hm₁, hnext₁]
      rcases hpid : p.traveler_id with _ | old <;>
        simp [List.enumFrom, hpid]
    · exact i4
    · exact i5
    · exact i6
    · exact i7
    · exact i8
    · exact i9

/-- `findIdx` over a mapped list tests the composed predicate. -/
theorem findIdx_map_comp {α β} (f : α → β) (p : β → Bool) :
    ∀ l : List α, (l.map f).findIdx p = l.findIdx (fun a => p (f a))
  | [] => rfl
  | a :: l => by
    rw [List.map_cons, List.findIdx_cons, List.findIdx_cons,
      findIdx_map_comp f p l]

/-- Indexed scan of a mapped list. -/
theorem enumFrom_map_val {α β} (f : α → β) :
    ∀ (l : List α) (n : Nat),
      List.enumFrom n (l.map f) = (List.enumFrom n l).map (fun q => (q.1, f q.2))
  | [], _ => rfl
  | a :: l, n => by
    simp [List.enumFrom, enumFrom_map_val f l (n + 1)]

/-- A map over an indexed scan that ignores the index is a plain map. -/
theorem enum_map_index_free {α β} (l : List α) (g : α → β) :
    l.enum.map (fun q => g q.2) = l.map g := by
  rw [show (fun q : Nat × α => g q.2) = (g ∘ Prod.snd) from rfl,
    ← List.map_map, List.enum_map_snd]

/-- A `filterMap` that hits on every element is a map. -/
theorem filterMap_eq_map_of_some {α β} (f : α → Option β) (g : α → β)
    (l : List α) (h : ∀ a ∈ l, f a = some (g a)) : l.filterMap f = l.map g := by
  induction l with
  | nil => rfl
  | cons a l ih =>
    rw [List.filterMap_cons, h a (List.mem_cons_self _ _), List.map_cons,
      ih (fun b hb => h b (List.mem_cons_of_mem _ hb))]


/-- Trip record as left by the import for exported payload `T`. -/
def tripImported (nt : String) (identD : Option String) (T : TripItem) : TripItem :=
  { T with trip_id := some nt, owner_id := T.owner_id <|> identD }

/-- Fresh-keyed imported place row. -/
def placeFresh (nt : String) (q : Nat × PlaceItem) : Nat × PlaceItem :=
  (q.1, { q.2 with place_id := some (toString q.1), trip_id := some nt })

/-- Fresh-keyed imported traveler row. -/
def travFresh (nt : String) (q : Nat × TravelerItem) : Nat × TravelerItem :=
  (q.1, { q.2 with traveler_id := some (toString q.1), trip_id := some nt })

/-- Imported itinerary payload: identifier cleared, trip reference fresh,
place reference remapped to the fresh key of the first exported place
carrying the referenced id. -/
def itinRemapped (nt : String) (p0 : Nat) (places : List PlaceItem)
    (i : ItineraryItem) : ItineraryItem :=
  { i with
    itinerary_id := none
    trip_id := some nt
    place_id := i.place_id.map (fun k =>
      JKey.s (toString (p0 + places.findIdx (fun p => p.place_id = some k.toStr)))) }

/-- Imported packing payload. -/
def packRemapped (nt : String) (p : PackingItem) : PackingItem :=
  { p with packing_id := none, trip_id := some nt }

/-- Imported expense payload with references remapped to the fresh keys
of the corresponding travelers. -/
def expRemapped (nt : String) (v0 : Nat) (travs : List TravelerItem)
    (e : ExpenseItem) : ExpenseItem :=
  { e with
    expense_id := none
    trip_id := some nt
    payer_id := e.payer_id.map (fun k =>
      JKey.n (v0 + travs.findIdx (fun t => t.traveler_id = some k.toStr)))
    charged_to := e.charged_to.map (fun l => l.map (fun k =>
      JKey.n (v0 + travs.findIdx (fun t => t.traveler_id = some k.toStr)))) }

/-- Characterization of the trip-insert stage. -/
theorem importStage1_spec (identD : Option String) (dxb : DB) (td : TripDoc)
    (hwfTr : dxb.trips.wfKeys) :
    (importStage1 identD dxb td).2 = toString dxb.trips.nextId ∧
    (importStage1 identD dxb td).1.trips.rows = dxb.trips.rows ++
      [(dxb.trips.nextId,
        { importTripPayload identD td with
          trip_id := some (toString dxb.trips.nextId) })] ∧
    (importStage1 identD dxb td).1.users = dxb.users ∧
    (importStage1 identD dxb td).1.places = dxb.places ∧
    (importStage1 identD dxb td).1.itinerary = dxb.itinerary ∧
    (importStage1 identD dxb td).1.packing = dxb.packing ∧
    (importStage1 identD dxb td).1.travelers = dxb.travelers ∧
    (importStage1 identD dxb td).1.expenses = dxb.expenses := by
  refine ⟨rfl, ?_, rfl, rfl, rfl, rfl, rfl, rfl⟩
  exact Table.add_update_fresh dxb.trips _ _ hwfTr

/-- Characterization of the children-import stage on the document of an
exported graph, under the well-formedness the round trip needs. -/
theorem importChildren_toDoc (nt : String) (dxb : DB) (G : TripGraphExport)
    (hwfP : dxb.places.wfKeys) (hwfT : dxb.travelers.wfKeys)
    (HpNodup : (G.places.filterMap (fun p => p.place_id)).Nodup)
    (HtNodup : (G.travelers.filterMap (fun t => t.traveler_id)).Nodup)
    (HitinRef : ∀ i ∈ G.itinerary, ∀ k, i.place_id = some k →
      ∃ p ∈ G.places, p.place_id = some k.toStr)
    (HexpPayer : ∀ e ∈ G.expenses, ∀ k, e.payer_id = some k →
      ∃ t ∈ G.travelers, t.traveler_id = some k.toStr)
    (HexpCharged : ∀ e ∈ G.expenses, ∀ l, e.charged_to = some l → ∀ k ∈ l,
      ∃ t ∈ G.travelers, t.traveler_id = some k.toStr) :
    (importChildren nt dxb G.toDoc).users = dxb.users ∧
    (importChildren nt dxb G.toDoc).trips = dxb.trips ∧
    (importChildren nt dxb G.toDoc).places.rows = dxb.places.rows ++
      (List.enumFrom dxb.places.nextId G.places).map (placeFresh nt) ∧
    (importChildren nt dxb G.toDoc).travelers.rows = dxb.travelers.rows ++
      (List.enumFrom dxb.travelers.nextId G.travelers).map (travFresh nt) ∧
    (importChildren nt dxb G.toDoc).itinerary.rows = dxb.itinerary.rows ++
      List.enumFrom dxb.itinerary.nextId
        (G.itinerary.map (itinRemapped nt dxb.places.nextId G.places)) ∧
    (importChildren nt dxb G.toDoc).packing.rows = dxb.packing.rows ++
      List.enumFrom dxb.packing.nextId (G.packing.map (packRemapped nt)) ∧
    (importChildren nt dxb G.toDoc).expenses.rows = dxb.expenses.rows ++
      List.enumFrom dxb.expenses.nextId
        (G.expenses.map (expRemapped nt dxb.travelers.nextId G.travelers)) ∧
    (importChildren nt dxb G.toDoc).places.nextId =
      dxb.places.nextId + G.places.length ∧
    (importChildren nt dxb G.toDoc).travelers.nextId =
      dxb.travelers.nextId + G.travelers.length ∧
    (importChildren nt dxb G.toDoc).itinerary.nextId =
      dxb.itinerary.nextId + G.itinerary.length ∧
    (importChildren nt dxb G.toDoc).packing.nextId =
      dxb.packing.nextId + G.packing.length ∧
    (importChildren nt dxb G.toDoc).expenses.nextId =
      dxb.expenses.nextId + G.expenses.length := by
  have hpnodup : ((G.places.map PlaceItem.toDoc).filterMap
      (fun p => p.place_id)).Nodup := by
    rw [List.filterMap_map]
    exact HpNodup
  have htnodup : ((G.travelers.map TravelerItem.toDoc).filterMap
      (fun t => t.traveler_id)).Nodup := by
    rw [List.filterMap_map]
    exact HtNodup
  obtain ⟨P1, P2, P3, P4, P5, P6, P7, P8, P9⟩ :=
    importPlaceDoc_foldl nt (G.places.map PlaceItem.toDoc) dxb [] hwfP hpnodup
      (by simp)
  have hwfT2 : (List.foldl (importPlaceDoc nt) (dxb, [])
      (G.places.map PlaceItem.toDoc)).1.travelers.wfKeys := by
    rw [P8]; exact hwfT
  obtain ⟨T1, T2, T3, T4, T5, T6, T7, T8, T9⟩ :=
    importTravelerDoc_foldl nt (G.travelers.map TravelerItem.toDoc)
      (List.foldl (importPlaceDoc nt) (dxb, []) (G.places.map PlaceItem.toDoc)).1
      [] hwfT2 htnodup (by simp)
  rw [List.nil_append] at P3 T3
  rw [P8] at T3
  refine ⟨?_, ?_, ?_, ?_, ?_, ?_, ?_, ?_, ?_, ?_, ?_, ?_⟩
  · exact T4.trans P4
  · exact T5.trans P5
  · show (List.foldl (importTravelerDoc nt)
        ((List.foldl (importPlaceDoc nt) (dxb, [])
          (G.places.map PlaceItem.toDoc)).1, [])
        (G.travelers.map TravelerItem.toDoc)).1.places.rows = _
    rw [T8, P1, enumFrom_map_val, List.map_map]
    congr 1
  · show (List.foldl (importTravelerDoc nt)
        ((List.foldl (importPlaceDoc nt) (dxb, [])
          (G.places.map PlaceItem.toDoc)).1, [])
        (G.travelers.map TravelerItem.toDoc)).1.travelers.rows = _
    rw [T1, P8, enumFrom_map_val, List.map_map]
    congr 1
  · show ((List.foldl (importTravelerDoc nt)
        ((List.foldl (importPlaceDoc nt) (dxb, [])
          (G.places.map PlaceItem.toDoc)).1, [])
        (G.travelers.map TravelerItem.toDoc)).1.itinerary.bulkAdd
        ((G.itinerary.map ItineraryItem.toDoc).enum.map (fun p =>
          importItineraryDoc nt
            (List.foldl (importPlaceDoc nt) (dxb, [])
              (G.places.map PlaceItem.toDoc)).2 p.1 p.2))).rows = _
    rw [Table.bulkAdd_rows, T6, P6]
    congr 1
    congr 1
    rw [List.enum_map, List.map_map, P3]
    have hstep : G.itinerary.enum.map
        ((fun p => importItineraryDoc nt
          ((List.enumFrom dxb.places.nextId
            (G.places.map PlaceItem.toDoc)).filterMap
            (fun q => q.2.place_id.map (fun k => (k, toString q.1)))) p.1 p.2) ∘ Prod.map id ItineraryItem.toDoc) =
        G.itinerary.enum.map (fun q => importItineraryDoc nt
          ((List.enumFrom dxb.places.nextId
            (G.places.map PlaceItem.toDoc)).filterMap
            (fun q => q.2.place_id.map (fun k => (k, toString q.1)))) 0 (ItineraryItem.toDoc q.2)) :=
      List.map_congr_left (fun q hq => rfl)
    rw [hstep, enum_map_index_free G.itinerary
      (fun i => importItineraryDoc nt
        ((List.enumFrom dxb.places.nextId
            (G.places.map PlaceItem.toDoc)).filterMap
            (fun q => q.2.place_id.map (fun k => (k, toString q.1)))) 0 (ItineraryItem.toDoc i))]
    refine List.map_congr_left (fun i hi => ?_)
    rcases hpid : i.place_id with _ | k
    · simp [importItineraryDoc, itinRemapped, ItineraryItem.toDoc, hpid]
    · obtain ⟨p, hp, hpk⟩ := HitinRef i hi k hpid
      have hlook : mapLookup ((List.enumFrom dxb.places.nextId
          (G.places.map PlaceItem.toDoc)).filterMap
            (fun q => q.2.place_id.map (fun k => (k, toString q.1)))) k.toStr =
          some (toString (dxb.places.nextId +
            (G.places.map PlaceItem.toDoc).findIdx
              (fun b => b.place_id = some k.toStr))) :=
        mapLookup_enumFrom_built _ _ _ _ _
          ⟨PlaceItem.toDoc p, List.mem_map_of_mem _ hp, hpk⟩
      have hidx : (G.places.map PlaceItem.toDoc).findIdx
          (fun b => b.place_id = some k.toStr) =
          G.places.findIdx (fun p => p.place_id = some k.toStr) :=
        findIdx_map_comp PlaceItem.toDoc _ G.places
      simp [importItineraryDoc, itinRemapped, ItineraryItem.toDoc, hpid,
        hlook, hidx]
  · show ((List.foldl (importTravelerDoc nt)
        ((List.foldl (importPlaceDoc nt) (dxb, [])
          (G.places.map PlaceItem.toDoc)).1, [])
        (G.travelers.map TravelerItem.toDoc)).1.packing.bulkAdd
        ((G.packing.map PackingItem.toDoc).enum.map (fun p =>
          importPackingDoc nt p.1 p.2))).rows = _
    rw [Table.bulkAdd_rows, T7, P7]
    congr 1
    congr 1
    rw [List.enum_map, List.map_map]
    have hstep : G.packing.enum.map
        ((fun p => importPackingDoc nt p.1 p.2) ∘ Prod.map id PackingItem.toDoc) =
        G.packing.enum.map (fun q => packRemapped nt q.2) :=
      List.map_congr_left (fun q hq => rfl)
    rw [hstep, enum_map_index_free G.packing (packRemapped nt)]
  · show ((List.foldl (importTravelerDoc nt)
        ((List.foldl (importPlaceDoc nt) (dxb, [])
          (G.places.map PlaceItem.toDoc)).1, [])
        (G.travelers.map TravelerItem.toDoc)).1.expenses.bulkAdd
        ((G.expenses.map ExpenseItem.toDoc).map (importExpenseDoc nt
          (List.foldl (importTravelerDoc nt)
            ((List.foldl (importPlaceDoc nt) (dxb, [])
              (G.places.map PlaceItem.toDoc)).1, [])
            (G.travelers.map TravelerItem.toDoc)).2))).rows = _
    rw [Table.bulkAdd_rows, T9, P9]
    congr 1
    congr 1
    rw [List.map_map, T3]
    refine List.map_congr_left (fun e he => ?_)
    have hlookT : ∀ k : JKey, (∃ t ∈ G.travelers, t.traveler_id = some k.toStr) →
        mapLookup ((List.enumFrom dxb.travelers.nextId
          (G.travelers.map TravelerItem.toDoc)).filterMap
            (fun q => q.2.traveler_id.map (fun k => (k, q.1)))) k.toStr =
          some (dxb.travelers.nextId +
            G.travelers.findIdx (fun t => t.traveler_id = some k.toStr)) := by
      intro k hk
      obtain ⟨t, ht, htk⟩ := hk
      have h := mapLookup_enumFrom_built TravelerDoc.traveler_id (fun n => n)
        (G.travelers.map TravelerItem.toDoc) dxb.travelers.nextId k.toStr
        ⟨TravelerItem.toDoc t, List.mem_map_of_mem _ ht, htk⟩
      have hidx : (G.travelers.map TravelerItem.toDoc).findIdx
          (fun b => b.traveler_id = some k.toStr) =
          G.travelers.findIdx (fun t => t.traveler_id = some k.toStr) :=
        findIdx_map_comp TravelerItem.toDoc _ G.travelers
      rw [hidx] at h
      exact h
    rcases hpay : e.payer_id with _ | pk
    · rcases hch : e.charged_to with _ | l
      · simp [importExpenseDoc, expRemapped, ExpenseItem.toDoc, hpay, hch]
      · have hall : ∀ k ∈ l, ((mapLookup ((List.enumFrom dxb.travelers.nextId
            (G.travelers.map TravelerItem.toDoc)).filterMap
              (fun q => q.2.traveler_id.map (fun k => (k, q.1)))) k.toStr).map
            JKey.n) = some (JKey.n (dxb.travelers.nextId +
              G.travelers.findIdx (fun t => t.traveler_id = some k.toStr))) := by
          intro k hkl
          rw [hlookT k (HexpCharged e he l hch k hkl)]
          rfl
        simp [importExpenseDoc, expRemapped, ExpenseItem.toDoc, hpay, hch,
          filterMap_eq_map_of_some _ _ l hall]
    · rcases hch : e.charged_to with _ | l
      · have hp := hlookT pk (HexpPayer e he pk hpay)
        simp [importExpenseDoc, expRemapped, ExpenseItem.toDoc, hpay, hch, hp]
      · have hp := hlookT pk (HexpPayer e he pk hpay)
        have hall : ∀ k ∈ l, ((mapLookup ((List.enumFrom dxb.travelers.nextId
            (G.travelers.map TravelerItem.toDoc)).filterMap
              (fun q => q.2.traveler_id.map (fun k => (k, q.1)))) k.toStr).map
            JKey.n) = some (JKey.n (dxb.travelers.nextId +
              G.travelers.findIdx (fun t => t.traveler_id = some k.toStr))) := by
          intro k hkl
          rw [hlookT k (HexpCharged e he l hch k hkl)]
          rfl
        simp [importExpenseDoc, expRemapped, ExpenseItem.toDoc, hpay, hch, hp,
          filterMap_eq_map_of_some _ _ l hall]
  · show (List.foldl (importTravelerDoc nt)
        ((List.foldl (importPlaceDoc nt) (dxb, [])
          (G.places.map PlaceItem.toDoc)).1, [])
        (G.travelers.map TravelerItem.toDoc)).1.places.nextId = _
    rw [T8, P2, List.length_map]
  · show (List.foldl (importTravelerDoc nt)
        ((List.foldl (importPlaceDoc nt) (dxb, [])
          (G.places.map PlaceItem.toDoc)).1, [])
        (G.travelers.map TravelerItem.toDoc)).1.travelers.nextId = _
    rw [T2, P8, List.length_map]
  · show ((List.foldl (importTravelerDoc nt)
        ((List.foldl (importPlaceDoc nt) (dxb, [])
          (G.places.map PlaceItem.toDoc)).1, [])
        (G.travelers.map TravelerItem.toDoc)).1.itinerary.bulkAdd
        ((G.itinerary.map ItineraryItem.toDoc).enum.map (fun p =>
          importItineraryDoc nt
            (List.foldl (importPlaceDoc nt) (dxb, [])
              (G.places.map PlaceItem.toDoc)).2 p.1 p.2))).nextId = _
    rw [Table.bulkAdd_nextId, T6, P6]
    simp
  · show ((List.foldl (importTravelerDoc nt)
        ((List.foldl (importPlaceDoc nt) (dxb, [])
          (G.places.map PlaceItem.toDoc)).1, [])
        (G.travelers.map TravelerItem.toDoc)).1.packing.bulkAdd
        ((G.packing.map PackingItem.toDoc).enum.map (fun p =>
          importPackingDoc nt p.1 p.2))).nextId = _
    rw [Table.bulkAdd_nextId, T7, P7]
    simp
  · show ((List.foldl (importTravelerDoc nt)
        ((List.foldl (importPlaceDoc nt) (dxb, [])
          (G.places.map PlaceItem.toDoc)).1, [])
        (G.travelers.map TravelerItem.toDoc)).1.expenses.bulkAdd
        ((G.expenses.map ExpenseItem.toDoc).map (importExpenseDoc nt
          (List.foldl (importTravelerDoc nt)
            ((List.foldl (importPlaceDoc nt) (dxb, [])
              (G.places.map PlaceItem.toDoc)).1, [])
            (G.travelers.map TravelerItem.toDoc)).2))).nextId = _
    rw [Table.bulkAdd_nextId, T9, P9]
    simp


/-- Table extensionality for the embedding. -/
theorem Table.eq_of_parts {α} (t u : Table α) (hr : t.rows = u.rows)
    (hn : t.nextId = u.nextId) : t = u := by
  cases t
  cases u
  cases hr
  cases hn
  rfl

/-- Store extensionality for the embedding. -/
theorem DB.eq_of_fields (d e : DB) (h1 : d.users = e.users) (h2 : d.trips = e.trips)
    (h3 : d.places = e.places) (h4 : d.itinerary = e.itinerary)
    (h5 : d.packing = e.packing) (h6 : d.travelers = e.travelers)
    (h7 : d.expenses = e.expenses) : d = e := by
  cases d
  cases e
  cases h1
  cases h2
  cases h3
  cases h4
  cases h5
  cases h6
  cases h7
  rfl

/-- Keys of an indexed enumeration are bounded. -/
theorem enumFrom_key_lt {α} (n : Nat) (l : List α) :
    ∀ q ∈ List.enumFrom n l, q.1 < n + l.length := by
  induction l generalizing n with
  | nil => intro q hq; cases hq
  | cons a l ih =>
    intro q hq
    rcases List.mem_cons.mp hq with h | h
    · subst h
      show n < n + (a :: l).length
      rw [List.length_cons]
      omega
    · have h2 := ih (n + 1) q h
      show q.1 < n + (a :: l).length
      rw [List.length_cons]
      omega

/-- The reference well-formedness of an exported graph that the round
trip needs: place and traveler identifiers are present and pairwise
distinct, and every itinerary place reference and expense traveler
reference resolves (by string form) inside the graph. -/
def TripGraphExport.wfRefs (G : TripGraphExport) : Prop :=
  (G.places.filterMap (fun p => p.place_id)).Nodup ∧
  (G.travelers.filterMap (fun t => t.traveler_id)).Nodup ∧
  (∀ i ∈ G.itinerary, ∀ k, i.place_id = some k →
    ∃ p ∈ G.places, p.place_id = some k.toStr) ∧
  (∀ e ∈ G.expenses, ∀ k, e.payer_id = some k →
    ∃ t ∈ G.travelers, t.traveler_id = some k.toStr) ∧
  (∀ e ∈ G.expenses, ∀ l, e.charged_to = some l → ∀ k ∈ l,
    ∃ t ∈ G.travelers, t.traveler_id = some k.toStr)

instance forallEqSomeDec {α : Type} (o : Option α) (P : α → Prop)
    [DecidablePred P] : Decidable (∀ k, o = some k → P k) :=
  match o with
  | none => isTrue (fun _ h => nomatch h)
  | some a => decidable_of_iff (P a)
      ⟨fun h k hk => (Option.some.inj hk) ▸ h, fun h => h a rfl⟩

instance tableWfKeysDec {α} [DecidableEq α] (t : Table α) :
    Decidable t.wfKeys :=
  decidable_of_iff (∀ r ∈ t.rows, r.1 < t.nextId) Iff.rfl

instance wfRefsDec (G : TripGraphExport) : Decidable G.wfRefs := by
  unfold TripGraphExport.wfRefs
  infer_instance

/-- The single-graph action of a successful offline import: the trip goes
in under the fresh local key (fields kept, `trip_id` set to the key's
string form, owner defaulted only when absent), children go in under
fresh consecutive keys with `trip_id` pointing at the new trip and
place/traveler cross-references remapped to the fresh keys of the
corresponding imported copies. -/
def importedOne (identD : Option String) (d : DB) (G : TripGraphExport) :
    DB :=
  { users := d.users
    trips := ⟨d.trips.rows ++
      [(d.trips.nextId,
        tripImported (toString d.trips.nextId) identD G.trip)],
      d.trips.nextId + 1⟩
    places := ⟨d.places.rows ++
      (List.enumFrom d.places.nextId G.places).map
        (placeFresh (toString d.trips.nextId)),
      d.places.nextId + G.places.length⟩
    itinerary := ⟨d.itinerary.rows ++
      List.enumFrom d.itinerary.nextId
        (G.itinerary.map (itinRemapped (toString d.trips.nextId)
          d.places.nextId G.places)),
      d.itinerary.nextId + G.itinerary.length⟩
    packing := ⟨d.packing.rows ++
      List.enumFrom d.packing.nextId
        (G.packing.map (packRemapped (toString d.trips.nextId))),
      d.packing.nextId + G.packing.length⟩
    travelers := ⟨d.travelers.rows ++
      (List.enumFrom d.travelers.nextId G.travelers).map
        (travFresh (toString d.trips.nextId)),
      d.travelers.nextId + G.travelers.length⟩
    expenses := ⟨d.expenses.rows ++
      List.enumFrom d.expenses.nextId
        (G.expenses.map (expRemapped (toString d.trips.nextId)
          d.travelers.nextId G.travelers)),
      d.expenses.nextId + G.expenses.length⟩ }

/-- Offline import of a list of exported graphs, graph by graph. -/
def importedAll (identD : Option String) (d : DB)
    (Gs : List TripGraphExport) : DB :=
  Gs.foldl (importedOne identD) d

/-- The payload list the local import loop accumulates for the remote
push: one entry per graph, carrying its fresh local trip id. -/
def importedPayloads (identD : Option String) :
    DB → List TripGraphExport → List SupaPayload
  | _, [] => []
  | d, G :: Gs =>
    { graph := G.toDoc,
      local_trip_id := some (toString d.trips.nextId) } ::
      importedPayloads identD (importedOne identD d G) Gs

/-- The slices `exportTripsData` emits for a trip whose `trip_id` equals
the (single) key its children are tagged with. -/
def exportedGraph (dxb : DB) (T : TripItem) (s : String) : TripGraphExport :=
  { trip := T
    places := dxb.places.selWhere (fun a => a.trip_id = some s)
    itinerary := dxb.itinerary.selWhere (fun a => a.trip_id = some s)
    packing := dxb.packing.selWhere (fun a => a.trip_id = some s)
    travelers := dxb.travelers.selWhere (fun a => a.trip_id = some s)
    expenses := dxb.expenses.selWhere (fun a => a.trip_id = some s) }

/-- How the expense views resolve a traveler reference against the store
(ExpensesManager.tsx: `String(t.__dexieid ?? t.traveler_id) ===
String(ref)`; a stored row always carries its key, so the key's string
form is compared). -/
def resolveTravelerRef (rows : List (Nat × TravelerItem)) (k : JKey) :
    Option Nat :=
  (rows.find? (fun r => toString r.1 = k.toStr)).map (fun r => r.1)

/-- Importing the document of one exported graph is exactly the
spec-level single-graph import. -/
theorem importTripGraph_run (identD : Option String) (dxt : DB)
    (G : TripGraphExport) (hwfTr : dxt.trips.wfKeys)
    (hwfP : dxt.places.wfKeys) (hwfT : dxt.travelers.wfKeys)
    (hG : G.wfRefs) :
    importTripGraph identD dxt G.toDoc =
      .ok (importedOne identD dxt G, toString dxt.trips.nextId) := by
  obtain ⟨HpNodup, HtNodup, HitinRef, HexpPayer, HexpCharged⟩ := hG
  obtain ⟨S1, S2, S3, S4, S5, S6, S7, S8⟩ :=
    importStage1_spec identD dxt G.trip.toDoc hwfTr
  have hwfP1 : (importStage1 identD dxt G.trip.toDoc).1.places.wfKeys := by
    rw [S4]; exact hwfP
  have hwfT1 : (importStage1 identD dxt G.trip.toDoc).1.travelers.wfKeys := by
    rw [S7]; exact hwfT
  obtain ⟨C1, C2, C3, C4, C5, C6, C7, N1, N2, N3, N4, N5⟩ :=
    importChildren_toDoc (importStage1 identD dxt G.trip.toDoc).2
      (importStage1 identD dxt G.trip.toDoc).1 G hwfP1 hwfT1
      HpNodup HtNodup HitinRef HexpPayer HexpCharged
  rw [S1, S4] at C3
  rw [S1, S7] at C4
  rw [S1, S5, S4] at C5
  rw [S1, S6] at C6
  rw [S1, S8, S7] at C7
  rw [S1] at C1 C2
  rw [S1, S4] at N1
  rw [S1, S7] at N2
  rw [S1, S5] at N3
  rw [S1, S6] at N4
  rw [S1, S8] at N5
  have hdb : importChildren (toString dxt.trips.nextId)
      (importStage1 identD dxt G.trip.toDoc).1 G.toDoc =
      importedOne identD dxt G := by
    refine DB.eq_of_fields _ _ ?_ ?_ ?_ ?_ ?_ ?_ ?_
    · exact C1.trans S3
    · refine Table.eq_of_parts _ _ ?_ ?_
      · rw [congrArg Table.rows C2, S2]
        rfl
      · rw [C2]
        rfl
    · exact Table.eq_of_parts _ _ C3 N1
    · exact Table.eq_of_parts _ _ C5 N3
    · exact Table.eq_of_parts _ _ C6 N4
    · exact Table.eq_of_parts _ _ C4 N2
    · exact Table.eq_of_parts _ _ C7 N5
  have hred : importTripGraph identD dxt G.toDoc =
      .ok (importChildren (importStage1 identD dxt G.trip.toDoc).2
        (importStage1 identD dxt G.trip.toDoc).1 G.toDoc,
        (importStage1 identD dxt G.trip.toDoc).2) := rfl
  rw [hred, S1, hdb]

/-- The spec-level import preserves key well-formedness of the three
tables the next import step depends on. -/
theorem importedOne_wf (identD : Option String) (d : DB)
    (G : TripGraphExport) (h1 : d.trips.wfKeys) (h2 : d.places.wfKeys)
    (h3 : d.travelers.wfKeys) :
    (importedOne identD d G).trips.wfKeys ∧
    (importedOne identD d G).places.wfKeys ∧
    (importedOne identD d G).travelers.wfKeys := by
  refine ⟨?_, ?_, ?_⟩
  · intro r hr
    show r.1 < d.trips.nextId + 1
    rcases List.mem_append.mp hr with h | h
    · exact Nat.lt_succ_of_lt (h1 r h)
    · rw [List.mem_singleton] at h
      subst h
      exact Nat.lt_succ_self _
  · intro r hr
    show r.1 < d.places.nextId + G.places.length
    rcases List.mem_append.mp hr with h | h
    · have := h2 r h
      omega
    · obtain ⟨q, hq, rfl⟩ := List.mem_map.mp h
      have := enumFrom_key_lt d.places.nextId G.places q hq
      simpa [placeFresh] using this
  · intro r hr
    show r.1 < d.travelers.nextId + G.travelers.length
    rcases List.mem_append.mp hr with h | h
    · have := h3 r h
      omega
    · obtain ⟨q, hq, rfl⟩ := List.mem_map.mp h
      have := enumFrom_key_lt d.travelers.nextId G.travelers q hq
      simpa [travFresh] using this

/-- The local import loop on the documents of exported graphs: every
graph is imported in order by the spec-level import, and the payload
list records each graph with its fresh local trip id. -/
theorem importTripsDataLoop_run (identD : Option String)
    (Gs : List TripGraphExport) :
    ∀ (dxt : DB) (acc : List SupaPayload), dxt.trips.wfKeys →
    dxt.places.wfKeys → dxt.travelers.wfKeys → (∀ G ∈ Gs, G.wfRefs) →
    importTripsDataLoop identD (Gs.map TripGraphExport.toDoc) dxt acc =
      .ok (importedAll identD dxt Gs,
        acc ++ importedPayloads identD dxt Gs) := by
  induction Gs with
  | nil =>
    intro dxt acc _ _ _ _
    simp [importTripsDataLoop, importedAll, importedPayloads]
  | cons G Gs ih =>
    intro dxt acc h1 h2 h3 hW
    have hrun := importTripGraph_run identD dxt G h1 h2 h3
      (hW G (List.mem_cons_self _ _))
    obtain ⟨w1, w2, w3⟩ := importedOne_wf identD dxt G h1 h2 h3
    have hstep : importTripsDataLoop identD
        ((G :: Gs).map TripGraphExport.toDoc) dxt acc =
        importTripsDataLoop identD (Gs.map TripGraphExport.toDoc)
          (importedOne identD dxt G)
          (acc ++ [⟨G.toDoc, some (toString dxt.trips.nextId)⟩]) := by
      show (match importTripGraph identD dxt G.toDoc with
        | .error msg => .error (msg, dxt)
        | .ok (dxb', localId) =>
          importTripsDataLoop identD (Gs.map TripGraphExport.toDoc) dxb'
            (acc ++ [⟨G.toDoc, some localId⟩]) :
          Except (String × DB) (DB × List SupaPayload)) = _
      rw [hrun]
    rw [hstep, ih (importedOne identD dxt G) _ w1 w2 w3
      (fun g hg => hW g (List.mem_cons_of_mem _ hg))]
    simp [importedAll, importedPayloads]

/-- Offline `importTripsData` on the documents of a non-empty list of
well-formed exported graphs: the import succeeds and the store grows by
exactly the spec-level import of every graph in order, with the ambient
identity (or else the first cached user) as default owner. -/
theorem importTripsData_run (Gs : List TripGraphExport)
    (identD : Option String) (outcomes : List (SupaRes SupaTripRow))
    (dxt : DB) (hne : Gs ≠ []) (hwfTr : dxt.trips.wfKeys)
    (hwfP : dxt.places.wfKeys) (hwfT : dxt.travelers.wfKeys)
    (hW : ∀ G ∈ Gs, G.wfRefs) :
    importTripsData (Gs.map TripGraphExport.toDoc) identD false outcomes
        dxt =
      ({ success := true },
        importedAll (identD <|> (dxt.users.rows.head?.bind
          (fun r => r.2.user_id))) dxt Gs) := by
  have hne' : Gs.map TripGraphExport.toDoc ≠ [] := by
    simpa using hne
  have hloop := importTripsDataLoop_run
    (identD <|> (dxt.users.rows.head?.bind (fun r => r.2.user_id))) Gs dxt
    [] hwfTr hwfP hwfT hW
  simp only [importTripsData]
  rw [if_neg hne', hloop]
  rfl

/-- Both passes of `queryByTripId` compute the `trip_id` slice when the
search keys are the trip key (plus possibly the legacy stringified store
key) and every row of the table carries a trip reference, rows tagged by
the legacy key only when it coincides with the trip key. -/
theorem queryByTripId_slice {α} (tripRef : α → Option String) (t : Table α)
    (keys : List String) (s : String) (d : Nat) (hks : s ∈ keys)
    (hsub : ∀ x ∈ keys, x = s ∨ x = toString d)
    (h : ∀ r ∈ t.rows, tripRef r.2 ≠ none ∧
      (tripRef r.2 = some (toString d) → toString d = s)) :
    queryByTripId tripRef t keys =
      t.selWhere (fun a => tripRef a = some s) := by
  have hne : ¬ keys = [] := by
    intro hc
    rw [hc] at hks
    cases hks
  have key : ∀ r ∈ t.rows, ∀ b : Bool,
      (match tripRef r.2 with
        | some x => decide (x ∈ keys)
        | none => b) = decide (tripRef r.2 = some s) := by
    intro r hr b
    rcases hx : tripRef r.2 with _ | x
    · exact absurd hx (h r hr).1
    · by_cases hxs : x = s
      · subst hxs
        simp [hks]
      · have hxk : x ∉ keys := by
          intro hkm
          rcases hsub x hkm with h1 | h1
          · exact hxs h1
          · exact hxs (h1.trans ((h r hr).2 (by rw [hx, h1])))
        simp [hxk, hxs]
  have h1 : t.selWhere (fun i =>
      match tripRef i with
      | some x => decide (x ∈ keys)
      | none => false) = t.selWhere (fun a => decide (tripRef a = some s)) := by
    unfold Table.selWhere
    congr 1
    refine List.filter_congr (fun r hr => ?_)
    exact key r hr false
  have h2 : t.selWhere (fun i =>
      match tripRef i with
      | some x => decide (x ∈ keys)
      | none => decide ("undefined" ∈ keys)) =
      t.selWhere (fun a => decide (tripRef a = some s)) := by
    unfold Table.selWhere
    congr 1
    refine List.filter_congr (fun r hr => ?_)
    exact key r hr (decide ("undefined" ∈ keys))
  show (if keys = [] then [] else
    if !(t.selWhere (fun i =>
      match tripRef i with
      | some x => decide (x ∈ keys)
      | none => false)).isEmpty then
      t.selWhere (fun i =>
        match tripRef i with
        | some x => decide (x ∈ keys)
        | none => false)
    else t.selWhere (fun i =>
      match tripRef i with
      | some x => decide (x ∈ keys)
      | none => decide ("undefined" ∈ keys))) = _
  rw [if_neg hne, h1, h2, ite_self]

/-- For a trip whose children satisfy the key hypotheses, the export
emits the trip payload with the `trip_id` slices of the five child
tables. -/
theorem exportTripRow_slice (dxb : DB) (T : TripItem) (s : String) (d : Nat)
    (hT : T.trip_id = some s) (hs0 : s ≠ "")
    (hchP : ∀ r ∈ dxb.places.rows, r.2.trip_id ≠ none ∧
      (r.2.trip_id = some (toString d) → toString d = s))
    (hchI : ∀ r ∈ dxb.itinerary.rows, r.2.trip_id ≠ none ∧
      (r.2.trip_id = some (toString d) → toString d = s))
    (hchK : ∀ r ∈ dxb.packing.rows, r.2.trip_id ≠ none ∧
      (r.2.trip_id = some (toString d) → toString d = s))
    (hchT : ∀ r ∈ dxb.travelers.rows, r.2.trip_id ≠ none ∧
      (r.2.trip_id = some (toString d) → toString d = s))
    (hchE : ∀ r ∈ dxb.expenses.rows, r.2.trip_id ≠ none ∧
      (r.2.trip_id = some (toString d) → toString d = s)) :
    exportTripRow dxb (d, T) = exportedGraph dxb T s := by
  have step1 : exportTripRow dxb (d, T) =
      { trip := T
        places := queryByTripId PlaceItem.trip_id dxb.places
          ((([T.trip_id <|> some (toString d), some (toString d)].filterMap
            id).filter (fun v => v ≠ "")).dedup)
        itinerary := queryByTripId ItineraryItem.trip_id dxb.itinerary
          ((([T.trip_id <|> some (toString d), some (toString d)].filterMap
            id).filter (fun v => v ≠ "")).dedup)
        packing := queryByTripId PackingItem.trip_id dxb.packing
          ((([T.trip_id <|> some (toString d), some (toString d)].filterMap
            id).filter (fun v => v ≠ "")).dedup)
        travelers := queryByTripId TravelerItem.trip_id dxb.travelers
          ((([T.trip_id <|> some (toString d), some (toString d)].filterMap
            id).filter (fun v => v ≠ "")).dedup)
        expenses := queryByTripId ExpenseItem.trip_id dxb.expenses
          ((([T.trip_id <|> some (toString d), some (toString d)].filterMap
            id).filter (fun v => v ≠ "")).dedup) } := rfl
  rw [step1, hT]
  have hform : (([some s <|> some (toString d),
      some (toString d)].filterMap (id : Option String → Option String)).filter
      (fun v => v ≠ "")) = ([s, toString d].filter (fun v => v ≠ "")) := rfl
  have hks : s ∈ ((([some s <|> some (toString d),
      some (toString d)].filterMap id).filter (fun v => v ≠ "")).dedup) := by
    rw [hform, List.mem_dedup]
    refine List.mem_filter.mpr ⟨List.mem_cons_self _ _, ?_⟩
    simpa using hs0
  have hsub : ∀ x ∈ ((([some s <|> some (toString d),
      some (toString d)].filterMap id).filter (fun v => v ≠ "")).dedup),
      x = s ∨ x = toString d := by
    intro x hx
    rw [hform] at hx
    have hx2 := (List.mem_filter.mp (List.mem_dedup.mp hx)).1
    simpa using hx2
  rw [queryByTripId_slice PlaceItem.trip_id dxb.places _ s d hks hsub hchP,
    queryByTripId_slice ItineraryItem.trip_id dxb.itinerary _ s d hks hsub
      hchI,
    queryByTripId_slice PackingItem.trip_id dxb.packing _ s d hks hsub hchK,
    queryByTripId_slice TravelerItem.trip_id dxb.travelers _ s d hks hsub
      hchT,
    queryByTripId_slice ExpenseItem.trip_id dxb.expenses _ s d hks hsub hchE]
  rfl

/-- Which rows a one-key export selects, for the three key shapes: a
numeric key, a numeric string (`bulkGet` path), or a non-numeric string
matching exactly one trip by the `trip_id` index. -/
theorem exportSelectedTrips_single (dxb : DB) (k : JKey) (T : TripItem)
    (s : String) (d : Nat)
    (hk : (k = JKey.n d ∧ jsToNumber (toString d) ≠ none ∧
        dxb.trips.get d = some T) ∨
      (∃ str, k = JKey.s str ∧ jsToNumber str = some d ∧
        dxb.trips.get d = some T) ∨
      (k = JKey.s s ∧ jsToNumber s = none ∧
        dxb.trips.rows.filter (fun r => r.2.trip_id = some s) = [(d, T)])) :
    exportSelectedTrips [k] dxb = [(d, T)] := by
  rcases hk with ⟨rfl, hds, hget⟩ | ⟨str, rfl, hjs, hget⟩ | ⟨rfl, hjs, hfil⟩
  · rcases Option.ne_none_iff_exists.mp hds with ⟨m, hm⟩
    simp [exportSelectedTrips, JKey.toStr, hget, ← hm]
  · simp [exportSelectedTrips, JKey.toStr, hjs, hget]
  · have hs0 : s ≠ "" := by
      intro hc
      rw [hc] at hjs
      simp [jsToNumber] at hjs
    have hfl : dxb.trips.rows.filter (fun r =>
        match r.2.trip_id with
        | some x => decide (x = s)
        | none => false) =
        dxb.trips.rows.filter (fun r => decide (r.2.trip_id = some s)) := by
      refine List.filter_congr (fun r hr => ?_)
      rcases hx : r.2.trip_id with _ | x
      · simp
      · by_cases hxs : x = s
        · subst hxs
          simp
        · simp [hxs]
    simp [exportSelectedTrips, JKey.toStr, hjs, hs0, hfl, hfil]

/-- `exportTripsData` emits, for each selected trip row, the graph of
the row's `trip_id` slices, provided every selected trip carries a
non-empty `trip_id` and the child tables reference trips as
hypothesised. -/
theorem exportTripsData_eq (tripIds : List JKey) (dxb : DB)
    (sel : List (Nat × TripItem))
    (hsel : exportSelectedTrips tripIds dxb = sel)
    (hrows : ∀ r ∈ sel, ∃ s, r.2.trip_id = some s ∧ s ≠ "" ∧
      (∀ q ∈ dxb.places.rows, q.2.trip_id ≠ none ∧
        (q.2.trip_id = some (toString r.1) → toString r.1 = s)) ∧
      (∀ q ∈ dxb.itinerary.rows, q.2.trip_id ≠ none ∧
        (q.2.trip_id = some (toString r.1) → toString r.1 = s)) ∧
      (∀ q ∈ dxb.packing.rows, q.2.trip_id ≠ none ∧
        (q.2.trip_id = some (toString r.1) → toString r.1 = s)) ∧
      (∀ q ∈ dxb.travelers.rows, q.2.trip_id ≠ none ∧
        (q.2.trip_id = some (toString r.1) → toString r.1 = s)) ∧
      (∀ q ∈ dxb.expenses.rows, q.2.trip_id ≠ none ∧
        (q.2.trip_id = some (toString r.1) → toString r.1 = s))) :
    exportTripsData tripIds dxb =
      sel.map (fun r => exportedGraph dxb r.2 (r.2.trip_id.getD "")) := by
  unfold exportTripsData
  rw [hsel]
  refine List.map_congr_left (fun r hr => ?_)
  obtain ⟨s, hT, hs0, hchP, hchI, hchK, hchT, hchE⟩ := hrows r hr
  have hrow : exportTripRow dxb (r.1, r.2) = exportedGraph dxb r.2 s :=
    exportTripRow_slice dxb r.2 s r.1 hT hs0 hchP hchI hchK hchT hchE
  rw [hT]
  exact hrow

/-- C1: export-then-import round trip.  As stated the claim is false (see
the counterexample: references held only through `__dexieid` are broken
by the round trip).  Amended: for a selection of locally stored trips
each carrying a non-empty persisted `trip_id` that its children reference
(every child row of the store carries a trip reference, and a row tagged
with a selected trip's stringified store key only where that key equals
the trip key), whose exported graphs have present, pairwise-distinct
place/traveler identifiers and in-graph-resolvable place and traveler
references, exporting and then importing the document offline succeeds
and reproduces every graph in order: the same field values under fresh
identifiers, each child's `trip_id` pointing at its re-imported trip and
each itinerary→place and expense→traveler reference remapped to the
fresh key of the corresponding copy (the content of `importedOne`). -/
theorem c1_round_trip_remaps_references (tripIds : List JKey) (dxb dxt : DB)
    (identD : Option String) (outcomes : List (SupaRes SupaTripRow))
    (sel : List (Nat × TripItem))
    (hsel : exportSelectedTrips tripIds dxb = sel) (hne : sel ≠ [])
    (hrows : ∀ r ∈ sel, ∃ s, r.2.trip_id = some s ∧ s ≠ "" ∧
      (∀ q ∈ dxb.places.rows, q.2.trip_id ≠ none ∧
        (q.2.trip_id = some (toString r.1) → toString r.1 = s)) ∧
      (∀ q ∈ dxb.itinerary.rows, q.2.trip_id ≠ none ∧
        (q.2.trip_id = some (toString r.1) → toString r.1 = s)) ∧
      (∀ q ∈ dxb.packing.rows, q.2.trip_id ≠ none ∧
        (q.2.trip_id = some (toString r.1) → toString r.1 = s)) ∧
      (∀ q ∈ dxb.travelers.rows, q.2.trip_id ≠ none ∧
        (q.2.trip_id = some (toString r.1) → toString r.1 = s)) ∧
      (∀ q ∈ dxb.expenses.rows, q.2.trip_id ≠ none ∧
        (q.2.trip_id = some (toString r.1) → toString r.1 = s)))
    (hW : ∀ r ∈ sel,
      (exportedGraph dxb r.2 (r.2.trip_id.getD "")).wfRefs)
    (hwfTr : dxt.trips.wfKeys) (hwfP : dxt.places.wfKeys)
    (hwfT : dxt.travelers.wfKeys) :
    exportTripsData tripIds dxb =
      sel.map (fun r => exportedGraph dxb r.2 (r.2.trip_id.getD "")) ∧
    importTripsData
        ((exportTripsData tripIds dxb).map TripGraphExport.toDoc) identD
        false outcomes dxt =
      ({ success := true },
        importedAll (identD <|> (dxt.users.rows.head?.bind
          (fun r => r.2.user_id))) dxt
          (sel.map (fun r =>
            exportedGraph dxb r.2 (r.2.trip_id.getD "")))) := by
  have hexp := exportTripsData_eq tripIds dxb sel hsel hrows
  refine ⟨hexp, ?_⟩
  rw [hexp]
  refine importTripsData_run _ identD outcomes dxt ?_ hwfTr hwfP hwfT ?_
  · simpa using hne
  · intro G hG
    obtain ⟨r, hr, rfl⟩ := List.mem_map.mp hG
    exact hW r hr

/-- The traveler of the counterexample store: persisted identifier null,
as the offline repositories leave it. -/
def c1srcTrav : TravelerItem :=
  { traveler_id := none
    trip_id := some "1"
    name := "Alice" }

/-- The expense of the counterexample store, referencing the traveler by
its stringified store key. -/
def c1srcExp : ExpenseItem :=
  { trip_id := some "1"
    title := "Dinner"
    amount := 30
    payer_id := some (JKey.s "2")
    charged_to := some [JKey.s "2"] }

def c1src : DB :=
  { users := Table.empty
    trips := ⟨[(1, { trip_id := some "1", title := "Rome" })], 2⟩
    places := Table.empty
    itinerary := Table.empty
    packing := Table.empty
    travelers := ⟨[(2, c1srcTrav)], 3⟩
    expenses := ⟨[(3, c1srcExp)], 4⟩ }

/-- The store produced by exporting the trip of `c1src` and importing the
document offline into an empty store. -/
def c1res : DB :=
  (importTripsData
    ((exportTripsData [JKey.n 1] c1src).map TripGraphExport.toDoc)
    none false [] DB.empty).2

/-- C1 counterexample: the round trip does not preserve relative
cross-references.  In the source store the expense's payer reference
resolves (UI resolution: stringified store key) to the traveler Alice;
after export and offline re-import the sole traveler is still Alice, but
the copied expense's payer reference resolves to no traveler and its
charged-to list has been emptied. -/
theorem c1_counterexample :
    (c1src.expenses.rows.map (fun r =>
      r.2.payer_id.bind (resolveTravelerRef c1src.travelers.rows)) =
        [some 2] ∧
      c1src.travelers.rows.map (fun r => (r.1, r.2.name)) =
        [(2, "Alice")]) ∧
    c1res.travelers.rows.map (fun r => r.2.name) = ["Alice"] ∧
    c1res.expenses.rows.map (fun r =>
      r.2.payer_id.bind (resolveTravelerRef c1res.travelers.rows)) =
      [none] ∧
    c1res.expenses.rows.map (fun r => r.2.charged_to) = [some []] := by
  decide

/-- The trip of the round-trip witness store. -/
def c1wTrip : TripItem := { trip_id := some "t1", title := "Kyoto" }

/-- Witness store: one trip with one child in each table, all references
held through persisted identifiers. -/
def c1wPlace : PlaceItem :=
  { place_id := some "p1"
    trip_id := some "t1"
    title := "Temple" }

def c1wItin : ItineraryItem :=
  { trip_id := some "t1"
    day_index := 0
    title := "Visit"
    place_id := some (JKey.s "p1") }

def c1wPack : PackingItem :=
  { trip_id := some "t1"
    title := "Socks"
    completed := false
    order := 1 }

def c1wTrav : TravelerItem :=
  { traveler_id := some "v1"
    trip_id := some "t1"
    name := "Bob" }

def c1wExp : ExpenseItem :=
  { trip_id := some "t1"
    title := "Tea"
    amount := 5
    payer_id := some (JKey.s "v1")
    charged_to := some [JKey.s "v1"] }

def c1wSrc : DB :=
  { users := Table.empty
    trips := ⟨[(5, c1wTrip)], 6⟩
    places := ⟨[(3, c1wPlace)], 4⟩
    itinerary := ⟨[(7, c1wItin)], 8⟩
    packing := ⟨[(2, c1wPack)], 3⟩
    travelers := ⟨[(4, c1wTrav)], 5⟩
    expenses := ⟨[(9, c1wExp)], 10⟩ }

theorem c1_witness :
    (exportSelectedTrips [JKey.n 5] c1wSrc = [(5, c1wTrip)] ∧
      ([(5, c1wTrip)] : List (Nat × TripItem)) ≠ [] ∧
      (∀ r ∈ ([(5, c1wTrip)] : List (Nat × TripItem)), ∃ s,
        r.2.trip_id = some s ∧ s ≠ "" ∧
        (∀ q ∈ c1wSrc.places.rows, q.2.trip_id ≠ none ∧
          (q.2.trip_id = some (toString r.1) → toString r.1 = s)) ∧
        (∀ q ∈ c1wSrc.itinerary.rows, q.2.trip_id ≠ none ∧
          (q.2.trip_id = some (toString r.1) → toString r.1 = s)) ∧
        (∀ q ∈ c1wSrc.packing.rows, q.2.trip_id ≠ none ∧
          (q.2.trip_id = some (toString r.1) → toString r.1 = s)) ∧
        (∀ q ∈ c1wSrc.travelers.rows, q.2.trip_id ≠ none ∧
          (q.2.trip_id = some (toString r.1) → toString r.1 = s)) ∧
        (∀ q ∈ c1wSrc.expenses.rows, q.2.trip_id ≠ none ∧
          (q.2.trip_id = some (toString r.1) → toString r.1 = s))) ∧
      (∀ r ∈ ([(5, c1wTrip)] : List (Nat × TripItem)),
        (exportedGraph c1wSrc r.2 (r.2.trip_id.getD "")).wfRefs) ∧
      DB.empty.trips.wfKeys ∧ DB.empty.places.wfKeys ∧
      DB.empty.travelers.wfKeys) ∧
    (exportTripsData [JKey.n 5] c1wSrc =
        ([(5, c1wTrip)] : List (Nat × TripItem)).map (fun r =>
          exportedGraph c1wSrc r.2 (r.2.trip_id.getD "")) ∧
      importTripsData
          ((exportTripsData [JKey.n 5] c1wSrc).map TripGraphExport.toDoc)
          none false [] DB.empty =
        ({ success := true },
          importedAll (none <|> (DB.empty.users.rows.head?.bind
            (fun r => r.2.user_id))) DB.empty
            (([(5, c1wTrip)] : List (Nat × TripItem)).map (fun r =>
              exportedGraph c1wSrc r.2 (r.2.trip_id.getD ""))))) := by
  have hrows : ∀ r ∈ ([(5, c1wTrip)] : List (Nat × TripItem)), ∃ s,
      r.2.trip_id = some s ∧ s ≠ "" ∧
      (∀ q ∈ c1wSrc.places.rows, q.2.trip_id ≠ none ∧
        (q.2.trip_id = some (toString r.1) → toString r.1 = s)) ∧
      (∀ q ∈ c1wSrc.itinerary.rows, q.2.trip_id ≠ none ∧
        (q.2.trip_id = some (toString r.1) → toString r.1 = s)) ∧
      (∀ q ∈ c1wSrc.packing.rows, q.2.trip_id ≠ none ∧
        (q.2.trip_id = some (toString r.1) → toString r.1 = s)) ∧
      (∀ q ∈ c1wSrc.travelers.rows, q.2.trip_id ≠ none ∧
        (q.2.trip_id = some (toString r.1) → toString r.1 = s)) ∧
      (∀ q ∈ c1wSrc.expenses.rows, q.2.trip_id ≠ none ∧
        (q.2.trip_id = some (toString r.1) → toString r.1 = s)) := by
    intro r hr
    rw [List.mem_singleton] at hr
    subst hr
    exact ⟨"t1", rfl, by decide, by decide, by decide, by decide, by decide,
      by decide⟩
  have hW : ∀ r ∈ ([(5, c1wTrip)] : List (Nat × TripItem)),
      (exportedGraph c1wSrc r.2 (r.2.trip_id.getD "")).wfRefs := by
    intro r hr
    rw [List.mem_singleton] at hr
    subst hr
    decide
  exact ⟨⟨by decide, by decide, hrows, hW, by decide, by decide, by decide⟩,
    c1_round_trip_remaps_references [JKey.n 5] c1wSrc DB.empty none []
      [(5, c1wTrip)] (by decide) (by decide) hrows hW (by decide)
      (by decide) (by decide)⟩

end TravelPlanner
